import Mathlib

/-! Lifecycle operations of the ONTAP provider: a shallow embedding.

Sources embedded here:

* `internal/provider/snapmirror_resource.go` (`SnapmirrorResource`),
* `internal/provider/storage_volume_snapshot_resource.go`
  (`StorageVolumeSnapshotResource`),
* `internal/interfaces/svm.go` (`GetSvmByName`, `UpdateSvm`).

An operation is a function of its request (plan and/or prior state) and of a
`Backend`, the collaborators that are not part of these sources.  It returns a
`Response`: the diagnostics reported, the chronological list of calls issued to
the collaborators, the value handed to `resp.State.Set` (if any) and whether the
run was cut short by a nil dereference.

A request is a decoded model: `req.Plan.Get` and `req.State.Get` are taken to have
succeeded, so every operation starts with empty diagnostics.  Logging (`tflog`) has
no effect on the response and is left out.
-/

namespace Ontap

/-! ## Framework values -/

/-- Value of the framework type `types.String`: null, unknown or a known string. -/
inductive TfString where
  | null
  | unknown
  | known (s : String)
  deriving DecidableEq, Repr

/-- Value of the framework type `types.Bool`: null, unknown or a known boolean. -/
inductive TfBool where
  | null
  | unknown
  | known (b : Bool)
  deriving DecidableEq, Repr

/-- Method `IsNull` of `types.String`. -/
def TfString.IsNull : TfString → Bool
  | .null => true
  | _ => false

/-- Method `ValueString` of `types.String`: the empty string unless the value is known. -/
def TfString.ValueString : TfString → String
  | .known s => s
  | _ => ""

/-- Method `Equal` of `types.String`: same state and, when known, same text. -/
def TfString.Equal (a b : TfString) : Bool :=
  decide (a = b)

/-- Method `IsNull` of `types.Bool`. -/
def TfBool.IsNull : TfBool → Bool
  | .null => true
  | _ => false

/-- Method `ValueBool` of `types.Bool`: false unless the value is known. -/
def TfBool.ValueBool : TfBool → Bool
  | .known b => b
  | _ => false

/-- One entry of `resp.Diagnostics` with error severity. -/
structure Diag where
  summary : String
  detail : String
  deriving DecidableEq, Repr

/-- Modelled from the spec: `utils.ErrorHandler.MakeAndReportError` is not among the
sources.  Following the Error Translator of the spec (one structured error per
failure, after which the operation does not continue) and its call sites
(`return nil, errorHandler.MakeAndReportError(...)`), it records one diagnostic
built from the summary and the detail and returns a non-nil error carrying the
detail.  The pair is (diagnostics after the call, returned error). -/
def MakeAndReportError (diags : List Diag) (summary detail : String) : List Diag × Option String :=
  (diags ++ [⟨summary, detail⟩], some detail)

/-! ## Data models -/

/-- Struct `Cluster` of the snapmirror resource. -/
structure Cluster where
  Name : TfString
  deriving DecidableEq, Repr

/-- Struct `EndPoint`; `Cluster` is a pointer in the source, nil is `none`. -/
structure EndPoint where
  Cluster : Option Cluster
  Path : TfString
  deriving DecidableEq, Repr

/-- Struct `CreateDestination`. -/
structure CreateDestination where
  Enabled : TfBool
  deriving DecidableEq, Repr

/-- Struct `SnapmirrorResourceModel`.  The two end points are required attributes
of the schema, so their pointers are never nil in a decoded plan or state. -/
structure SnapmirrorResourceModel where
  CxProfileName : TfString
  SourceEndPoint : EndPoint
  DestinationEndPoint : EndPoint
  CreateDestination : Option CreateDestination
  Initialize : TfBool
  Healthy : TfBool
  State : TfString
  ID : TfString
  deriving DecidableEq, Repr

/-- End point of `interfaces.SnapmirrorResourceBodyDataModelONTAP`, as far as
`Create` fills it in: cluster name and path, both empty by default. -/
structure BodyEndPoint where
  ClusterName : String
  Path : String
  deriving DecidableEq, Repr

/-- Request body `interfaces.SnapmirrorResourceBodyDataModelONTAP`, restricted to
the fields `Create` assigns. -/
structure SnapmirrorResourceBodyDataModelONTAP where
  SourceEndPoint : BodyEndPoint
  DestinationEndPoint : BodyEndPoint
  CreateDestinationEnabled : Bool
  deriving DecidableEq, Repr

/-- Record returned by `interfaces.CreateSnapmirror` and `interfaces.GetSnapmirrorByID`,
restricted to the fields the resource reads. -/
structure SnapmirrorGetDataModelONTAP where
  Healthy : Bool
  State : String
  UUID : String
  deriving DecidableEq, Repr

/-- Struct `NameResourceModel` (a name reference of the snapshot resource). -/
structure NameResourceModel where
  Name : TfString
  deriving DecidableEq, Repr

/-- Struct `StorageVolumeSnapshotResourceModel` of the provider package. -/
structure StorageVolumeSnapshotResourceModel where
  CxProfileName : TfString
  Name : TfString
  Volume : NameResourceModel
  SVM : NameResourceModel
  ExpiryTime : TfString
  SnaplockExpiryTime : TfString
  Comment : TfString
  SnapmirrorLabel : TfString
  ID : TfString
  deriving DecidableEq, Repr

/-- Request struct `interfaces.StorageVolumeSnapshotResourceModel`; every field is a
Go string whose zero value, the empty string, means the field is omitted. -/
structure SnapshotRequest where
  Name : String
  ExpiryTime : String
  SnaplockExpiryTime : String
  Comment : String
  SnapmirrorLabel : String
  deriving DecidableEq, Repr

/-- Struct `SvmGetDataModelONTAP`. -/
structure SvmGetDataModelONTAP where
  Name : String
  UUID : String
  deriving DecidableEq, Repr

/-- Record with a UUID, as returned by the volume lookup and the snapshot calls. -/
structure UUIDRecord where
  Name : String
  UUID : String
  deriving DecidableEq, Repr

/-! ## Collaborators -/

/-- Value inside a generic payload (`map[string]interface{}`): a string, a nested
object of strings, or a list of string maps. -/
inductive PayloadValue where
  | str (s : String)
  | obj (fields : List (String × String))
  | maps (items : List (List (String × String)))
  deriving DecidableEq, Repr

/-- Generic payload `map[string]interface{}`, as a list of key/value entries with
distinct keys. -/
abbrev Payload := List (String × PayloadValue)

/-- Query parameters built with `r.NewQuery()` and `query.Add`. -/
abbrev Query := List (String × String)

/-- Failure of a gateway call: the status code and the transport or backend error. -/
structure GatewayError where
  statusCode : Int
  message : String
  deriving DecidableEq, Repr

/-- The calls an operation issues to code outside these sources, with their
arguments: functions of package `interfaces` that are not in `svm.go`, methods of
`restclient.RestClient`, and `time.Sleep` (in seconds). -/
inductive Call where
  | CreateSnapmirror (body : SnapmirrorResourceBodyDataModelONTAP)
  | GetSnapmirrorByID (id : String)
  | InitializeSnapmirror (uuid : String) (state : String)
  | DeleteSnapmirror (uuid : String)
  | Sleep (seconds : Nat)
  | GetNilOrOneRecord (api : String) (query : Query)
  | CallCreateMethod (api : String) (query : Query) (body : Payload)
  | CallUpdateMethod (api : String) (query : Query) (body : Payload)
  | GetUUIDVolumeByName (svmUUID : String) (name : String)
  | CreateStorageVolumeSnapshot (request : SnapshotRequest) (volumeUUID : String)
  | GetStorageVolumeSnapshot (volumeUUID : String) (id : String)
  | UpdateStorageVolumeSnapshot (request : SnapshotRequest) (volumeUUID : String) (id : String)
  | DeleteStorageVolumeSnapshot (volumeUUID : String) (id : String)
  deriving DecidableEq, Repr

/-- The collaborators of the operations.  Every reply may depend on the calls issued
earlier in the same operation (the first argument), so the backend may change
between two reads.  A function of package `interfaces` that fails has reported its
error itself ("error reporting done inside ..."): its failure carries the
diagnostic it recorded.  The lookups whose result the source tests against nil
reply with an optional record. -/
structure Backend where
  getRestClient : TfString → Except Diag Unit
  CreateSnapmirror : List Call → SnapmirrorResourceBodyDataModelONTAP → Except Diag SnapmirrorGetDataModelONTAP
  GetSnapmirrorByID : List Call → String → Except Diag SnapmirrorGetDataModelONTAP
  InitializeSnapmirror : List Call → String → String → Except Diag Unit
  DeleteSnapmirror : List Call → String → Except Diag Unit
  GetNilOrOneRecord : List Call → String → Query → Except GatewayError (Int × Option Payload)
  CallCreateMethod : List Call → String → Query → Payload → Except GatewayError (Int × List Payload)
  CallUpdateMethod : List Call → String → Query → Payload → Except GatewayError Int
  decodeSvmGet : Payload → Except String SvmGetDataModelONTAP
  GetUUIDVolumeByName : List Call → String → String → Except Diag (Option UUIDRecord)
  CreateStorageVolumeSnapshot : List Call → SnapshotRequest → String → Except Diag UUIDRecord
  GetStorageVolumeSnapshot : List Call → String → String → Except Diag UUIDRecord
  UpdateStorageVolumeSnapshot : List Call → SnapshotRequest → String → String → Except Diag Unit
  DeleteStorageVolumeSnapshot : List Call → String → String → Except Diag Unit

/-- Progress of one operation: diagnostics reported and calls issued so far. -/
structure Run where
  diags : List Diag
  trace : List Call
  deriving DecidableEq, Repr

/-- Start of an operation: no diagnostic, no call. -/
def Run.start : Run :=
  ⟨[], []⟩

/-- Issue call `c` whose collaborator answers `reply`: the call is appended to the
trace and, when the collaborator fails, so is the diagnostic it reported. -/
def Run.invoke {α : Type} (r : Run) (c : Call) (reply : Except Diag α) : Run × Except Diag α :=
  match reply with
  | .ok a => (⟨r.diags, r.trace ++ [c]⟩, .ok a)
  | .error d => (⟨r.diags ++ [d], r.trace ++ [c]⟩, .error d)

/-- Result of an operation: the diagnostics of `resp.Diagnostics`, the calls issued
in order, the value passed to `resp.State.Set` (none when it was never called), and
whether the run ended in a nil pointer dereference. -/
structure Response (σ : Type) where
  diags : List Diag
  trace : List Call
  saved : Option σ
  panicked : Bool
  deriving DecidableEq, Repr

/-- Method `Diagnostics.HasError`: at least one error was reported. -/
def Response.HasError {σ : Type} (resp : Response σ) : Bool :=
  !resp.diags.isEmpty

/-- An operation that returns without saving state. -/
def Run.stop {σ : Type} (r : Run) : Response σ :=
  ⟨r.diags, r.trace, none, false⟩

/-- An operation that returns after `resp.State.Set(ctx, &data)`. -/
def Run.save {σ : Type} (r : Run) (data : σ) : Response σ :=
  ⟨r.diags, r.trace, some data, false⟩

/-- An operation cut short by a nil pointer dereference. -/
def Run.crash {σ : Type} (r : Run) : Response σ :=
  ⟨r.diags, r.trace, none, true⟩

/-- Obtain the REST client: on failure the error has been reported inside. -/
def getRestClient (b : Backend) (r : Run) (profile : TfString) : Run × Except Diag Unit :=
  match b.getRestClient profile with
  | .ok u => (r, .ok u)
  | .error d => (⟨r.diags ++ [d], r.trace⟩, .error d)

/-- Method `errorHandler.MakeAndReportError` applied to the diagnostics of a run. -/
def Run.report (r : Run) (summary detail : String) : Run × Option String :=
  (⟨(MakeAndReportError r.diags summary detail).1, r.trace⟩, (MakeAndReportError r.diags summary detail).2)

/-! ## `SnapmirrorResource` (snapmirror_resource.go) -/

/-- The request body `Create` builds from the plan (lines 224 to 240). -/
def SnapmirrorResource.Create.body (data : SnapmirrorResourceModel) : SnapmirrorResourceBodyDataModelONTAP :=
  let sourceCluster :=
    match data.SourceEndPoint.Cluster with
    | some c => if !c.Name.IsNull then c.Name.ValueString else ""
    | none => ""
  let destinationCluster :=
    match data.DestinationEndPoint.Cluster with
    | some c => if !c.Name.IsNull then c.Name.ValueString else ""
    | none => ""
  let enabled :=
    match data.CreateDestination with
    | some c => if !c.Enabled.IsNull then c.Enabled.ValueBool else false
    | none => false
  { SourceEndPoint := ⟨sourceCluster, data.SourceEndPoint.Path.ValueString⟩
    DestinationEndPoint := ⟨destinationCluster, data.DestinationEndPoint.Path.ValueString⟩
    CreateDestinationEnabled := enabled }

/-- The tail of `Create` (lines 276 to 290), reached from both branches of the
initialize test: read the relationship under `data.ID`, refresh the computed
attributes and save. -/
def SnapmirrorResource.Create.finish (b : Backend) (r : Run) (resource : SnapmirrorGetDataModelONTAP)
    (data : SnapmirrorResourceModel) : Response SnapmirrorResourceModel :=
  match r.invoke (Call.GetSnapmirrorByID data.ID.ValueString) (b.GetSnapmirrorByID r.trace data.ID.ValueString) with
  | (r1, .error _) => r1.stop
  | (r1, .ok restInfo) =>
    r1.save { data with
      Healthy := TfBool.known restInfo.Healthy
      State := TfString.known restInfo.State
      ID := TfString.known resource.UUID }

/-- Method `SnapmirrorResource.Create`. -/
def SnapmirrorResource.Create (b : Backend) (data : SnapmirrorResourceModel) :
    Response SnapmirrorResourceModel :=
  let body := SnapmirrorResource.Create.body data
  match getRestClient b Run.start data.CxProfileName with
  | (r, .error _) => r.stop
  | (r, .ok _) =>
    match r.invoke (Call.CreateSnapmirror body) (b.CreateSnapmirror r.trace body) with
    | (r1, .error _) => r1.stop
    | (r1, .ok resource) =>
      match r1.invoke (Call.GetSnapmirrorByID data.ID.ValueString)
          (b.GetSnapmirrorByID r1.trace data.ID.ValueString) with
      | (r2, .error _) => r2.stop
      | (r2, .ok restInfo) =>
        let data1 : SnapmirrorResourceModel := { data with
          Healthy := TfBool.known restInfo.Healthy
          State := TfString.known restInfo.State
          ID := TfString.known resource.UUID }
        if data1.Initialize.ValueBool && data1.State.ValueString == "uninitialized" then
          let r3 : Run := ⟨r2.diags, r2.trace ++ [Call.Sleep 3]⟩
          match r3.invoke (Call.InitializeSnapmirror data1.ID.ValueString "snapmirrored")
              (b.InitializeSnapmirror r3.trace data1.ID.ValueString "snapmirrored") with
          | (r4, .error _) => r4.stop
          | (r4, .ok _) =>
            let data2 : SnapmirrorResourceModel := { data1 with
              Healthy := TfBool.known restInfo.Healthy
              State := TfString.known restInfo.State }
            SnapmirrorResource.Create.finish b r4 resource data2
        else
          SnapmirrorResource.Create.finish b r2 resource data1

/-- Method `SnapmirrorResource.Read`. -/
def SnapmirrorResource.Read (b : Backend) (data : SnapmirrorResourceModel) :
    Response SnapmirrorResourceModel :=
  match getRestClient b Run.start data.CxProfileName with
  | (r, .error _) => r.stop
  | (r, .ok _) =>
    match r.invoke (Call.GetSnapmirrorByID data.ID.ValueString)
        (b.GetSnapmirrorByID r.trace data.ID.ValueString) with
    | (r1, .error _) => r1.stop
    | (r1, .ok restInfo) =>
      r1.save { data with
        ID := TfString.known restInfo.UUID
        Healthy := TfBool.known restInfo.Healthy
        State := TfString.known restInfo.State }

/-- Method `SnapmirrorResource.Update`: the error is made and reported first, and the
plan is saved only if that call returned no error. -/
def SnapmirrorResource.Update (_b : Backend) (plan _state : SnapmirrorResourceModel) :
    Response SnapmirrorResourceModel :=
  match Run.start.report "Update not supported for snapmirror" "Update not supported for snapmirror" with
  | (r, some _) => r.stop
  | (r, none) => r.save plan

/-- Method `SnapmirrorResource.Delete`. -/
def SnapmirrorResource.Delete (b : Backend) (data : SnapmirrorResourceModel) :
    Response SnapmirrorResourceModel :=
  match getRestClient b Run.start data.CxProfileName with
  | (r, .error _) => r.stop
  | (r, .ok _) =>
    if data.ID.IsNull then
      (r.report "UUID is null" "snapmirror UUID is null").1.stop
    else
      match r.invoke (Call.DeleteSnapmirror data.ID.ValueString)
          (b.DeleteSnapmirror r.trace data.ID.ValueString) with
      | (r1, .error _) => r1.stop
      | (r1, .ok _) => r1.stop

/-! ## Package `interfaces` (svm.go) -/

/-- Struct `Ipspace`. -/
structure Ipspace where
  Name : String
  deriving DecidableEq, Repr

/-- Struct `SnapshotPolicy`. -/
structure SnapshotPolicy where
  Name : String
  deriving DecidableEq, Repr

/-- Struct `SvmResourceModel`. -/
structure SvmResourceModel where
  Name : String
  Ipspace : Ipspace
  SnapshotPolicy : SnapshotPolicy
  SubType : String
  Comment : String
  Language : String
  MaxVolumes : String
  Aggregates : List (List (String × String))
  deriving DecidableEq, Repr

/-- A string field tagged `omitempty`: no entry for the empty string. -/
def omitemptyStr (key value : String) : Payload :=
  if value = "" then [] else [(key, PayloadValue.str value)]

/-- A nested struct whose only field is `Name`, tagged `name,omitempty`. -/
def nameObject (name : String) : PayloadValue :=
  PayloadValue.obj (if name = "" then [] else [("name", name)])

/-- The call `mapstructure.Decode(data, &body)` for an `SvmResourceModel`: the generic
payload laid out by the struct tags of the source.  `name`, `ipspace` and
`snapshot_policy` are always present; a field tagged `omitempty` is left out when
it is empty.  Decoding a struct of strings into a map does not fail. -/
def decodeSvmResourceModel (data : SvmResourceModel) : Except String Payload :=
  .ok ([("name", PayloadValue.str data.Name),
        ("ipspace", nameObject data.Ipspace.Name),
        ("snapshot_policy", nameObject data.SnapshotPolicy.Name)]
      ++ omitemptyStr "subtype" data.SubType
      ++ omitemptyStr "comment" data.Comment
      ++ omitemptyStr "language" data.Language
      ++ omitemptyStr "max_volumes" data.MaxVolumes
      ++ (if data.Aggregates.isEmpty then [] else [("aggregates", PayloadValue.maps data.Aggregates)]))

/-- The builtin `delete(body, key)` on a payload. -/
def Payload.delete (body : Payload) (key : String) : Payload :=
  body.filter (fun kv => kv.1 != key)

/-- Lookup `body[key]` in a payload. -/
def Payload.get (body : Payload) (key : String) : Option PayloadValue :=
  (body.find? (fun kv => kv.1 == key)).map Prod.snd

/-- Function `GetSvmByName`.  The gateway returns no record when nothing matches, and
`mapstructure.Decode` of that nil response leaves the result pointer nil without an
error: the function then returns (nil, nil).  The rendering of the response in
the detail of a decode failure is left out. -/
def GetSvmByName (b : Backend) (r : Run) (name : String) :
    Run × Except String (Option SvmGetDataModelONTAP) :=
  let query : Query := [("name", name)]
  let r1 : Run := ⟨r.diags, r.trace ++ [Call.GetNilOrOneRecord "svm/svms" query]⟩
  match b.GetNilOrOneRecord r.trace "svm/svms" query with
  | .error e =>
    let rep := r1.report "error reading vserver info"
      ("error on GET svm/svms: " ++ e.message ++ ", statusCode " ++ toString e.statusCode)
    (rep.1, .error (rep.2.getD ""))
  | .ok (_, none) => (r1, .ok none)
  | .ok (statusCode, some response) =>
    match b.decodeSvmGet response with
    | .error err =>
      let rep := r1.report "failed to decode response from GET svm by name"
        ("error: " ++ err ++ ", statusCode " ++ toString statusCode)
      (rep.1, .error (rep.2.getD ""))
    | .ok dataONTAP => (r1, .ok (some dataONTAP))

/-- Function `UpdateSvm`; the result is the returned error, none for nil.  The
rendering of the struct in the detail of an encoding failure is left out. -/
def UpdateSvm (b : Backend) (r : Run) (data : SvmResourceModel) (uuid : String) (rename : Bool) :
    Run × Option String :=
  match decodeSvmResourceModel data with
  | .error err =>
    r.report "error encoding vserver body" ("error on encoding svm/svms body: " ++ err)
  | .ok body0 =>
    let body := if !rename then Payload.delete body0 "name" else body0
    let query : Query := [("return_records", "true")]
    let r1 : Run := ⟨r.diags, r.trace ++ [Call.CallUpdateMethod ("svm/svms/" ++ uuid) query body]⟩
    match b.CallUpdateMethod r.trace ("svm/svms/" ++ uuid) query body with
    | .error e =>
      r1.report "error updating vserver"
        ("error on PATCH svm/svms: " ++ e.message ++ ", statusCode " ++ toString e.statusCode)
    | .ok _ => (r1, none)

/-! ## `StorageVolumeSnapshotResource` (storage_volume_snapshot_resource.go) -/

/-- Method `String` of `types.String`, used by the verb `%s`: the quoted text of a
known value (escapes left out), or a marker for null and unknown. -/
def TfString.String : TfString → String
  | .null => "<null>"
  | .unknown => "<unknown>"
  | .known s => "\"" ++ s ++ "\""

/-- The request `Create` builds from the plan (lines 168 to 180). -/
def StorageVolumeSnapshotResource.Create.request (data : StorageVolumeSnapshotResourceModel) :
    SnapshotRequest :=
  { Name := data.Name.ValueString
    ExpiryTime := if !data.ExpiryTime.IsNull then data.ExpiryTime.ValueString else ""
    Comment := if !data.Comment.IsNull then data.Comment.ValueString else ""
    SnapmirrorLabel := if !data.SnapmirrorLabel.IsNull then data.SnapmirrorLabel.ValueString else ""
    SnaplockExpiryTime :=
      if !data.SnaplockExpiryTime.IsNull then data.SnaplockExpiryTime.ValueString else "" }

/-- Method `StorageVolumeSnapshotResource.Create`. -/
def StorageVolumeSnapshotResource.Create (b : Backend) (data : StorageVolumeSnapshotResourceModel) :
    Response StorageVolumeSnapshotResourceModel :=
  match getRestClient b Run.start data.CxProfileName with
  | (r, .error _) => r.stop
  | (r, .ok _) =>
    match GetSvmByName b r data.SVM.Name.ValueString with
    | (r1, .error _) => r1.stop
    | (r1, .ok none) =>
      (r1.report "No svm found" ("svm " ++ data.SVM.Name.String ++ " not found.")).1.stop
    | (r1, .ok (some svm)) =>
      match r1.invoke (Call.GetUUIDVolumeByName svm.UUID data.Volume.Name.ValueString)
          (b.GetUUIDVolumeByName r1.trace svm.UUID data.Volume.Name.ValueString) with
      | (r2, .error _) => r2.stop
      | (r2, .ok none) =>
        (r2.report "No volume found" ("volume " ++ data.Volume.Name.String ++ " not found.")).1.stop
      | (r2, .ok (some volume)) =>
        let request := StorageVolumeSnapshotResource.Create.request data
        match r2.invoke (Call.CreateStorageVolumeSnapshot request volume.UUID)
            (b.CreateStorageVolumeSnapshot r2.trace request volume.UUID) with
        | (r3, .error _) => r3.stop
        | (r3, .ok snapshot) => r3.save { data with ID := TfString.known snapshot.UUID }

/-- Method `StorageVolumeSnapshotResource.Read`.  The results of the two lookups are
dereferenced without a nil test (`svm.UUID` at line 212, `volume.UUID` at line 216). -/
def StorageVolumeSnapshotResource.Read (b : Backend) (data : StorageVolumeSnapshotResourceModel) :
    Response StorageVolumeSnapshotResourceModel :=
  match getRestClient b Run.start data.CxProfileName with
  | (r, .error _) => r.stop
  | (r, .ok _) =>
    match GetSvmByName b r data.SVM.Name.ValueString with
    | (r1, .error _) => r1.stop
    | (r1, .ok none) => r1.crash
    | (r1, .ok (some svm)) =>
      match r1.invoke (Call.GetUUIDVolumeByName svm.UUID data.Volume.Name.ValueString)
          (b.GetUUIDVolumeByName r1.trace svm.UUID data.Volume.Name.ValueString) with
      | (r2, .error _) => r2.stop
      | (r2, .ok none) => r2.crash
      | (r2, .ok (some volume)) =>
        match r2.invoke (Call.GetStorageVolumeSnapshot volume.UUID data.ID.ValueString)
            (b.GetStorageVolumeSnapshot r2.trace volume.UUID data.ID.ValueString) with
        | (r3, .error _) => r3.stop
        | (r3, .ok snapshot) => r3.save { data with Name := TfString.known snapshot.Name }

/-- The request `Update` builds by comparing the plan `data` with the prior `state`
(lines 256 to 288).  A field that changed to the empty string reports an error and
ends the operation: the result is then the run after the report. -/
def StorageVolumeSnapshotResource.Update.request (r : Run)
    (data state : StorageVolumeSnapshotResourceModel) : Except Run SnapshotRequest := do
  let request : SnapshotRequest := ⟨"", "", "", "", ""⟩
  let request :=
    if !data.Name.Equal state.Name then
      { request with Name := data.Name.ValueString }
    else request
  let request ← (
    if !data.ExpiryTime.Equal state.ExpiryTime then
      if data.ExpiryTime.ValueString == "" then
        throw (r.report "update expiry_time" "expiry_time cannot be updated with empty string").1
      else pure { request with ExpiryTime := data.ExpiryTime.ValueString }
    else pure request)
  let request ← (
    if !data.SnaplockExpiryTime.Equal state.SnaplockExpiryTime then
      if data.SnaplockExpiryTime.ValueString == "" then
        throw (r.report "update snaplock_expiry_time"
          "snaplock_expiry_time cannot be updated with empty string").1
      else pure { request with SnaplockExpiryTime := data.SnaplockExpiryTime.ValueString }
    else pure request)
  let request ← (
    if !data.Comment.Equal state.Comment then
      if data.Comment.ValueString == "" then
        throw (r.report "update comment" "comment cannot be updated with empty string").1
      else pure { request with Comment := data.Comment.ValueString }
    else pure request)
  let request ← (
    if !data.SnapmirrorLabel.Equal state.SnapmirrorLabel then
      if data.SnapmirrorLabel.ValueString == "" then
        throw (r.report "update snapmirror_label"
          "snapmirror_label cannot be updated with empty string").1
      else pure { request with SnapmirrorLabel := data.SnapmirrorLabel.ValueString }
    else pure request)
  return request

/-- Method `StorageVolumeSnapshotResource.Update`.  `svm.UUID` is dereferenced at line
252 without a nil test; `volume.UUID` is dereferenced only at line 290, when the
arguments of the PATCH call are evaluated, after the request has been built. -/
def StorageVolumeSnapshotResource.Update (b : Backend)
    (data state : StorageVolumeSnapshotResourceModel) :
    Response StorageVolumeSnapshotResourceModel :=
  match getRestClient b Run.start data.CxProfileName with
  | (r, .error _) => r.stop
  | (r, .ok _) =>
    match GetSvmByName b r data.SVM.Name.ValueString with
    | (r1, .error _) => r1.stop
    | (r1, .ok none) => r1.crash
    | (r1, .ok (some svm)) =>
      match r1.invoke (Call.GetUUIDVolumeByName svm.UUID data.Volume.Name.ValueString)
          (b.GetUUIDVolumeByName r1.trace svm.UUID data.Volume.Name.ValueString) with
      | (r2, .error _) => r2.stop
      | (r2, .ok volume) =>
        match StorageVolumeSnapshotResource.Update.request r2 data state with
        | .error r3 => r3.stop
        | .ok request =>
          match volume with
          | none => r2.crash
          | some volume =>
            match r2.invoke
                (Call.UpdateStorageVolumeSnapshot request volume.UUID state.ID.ValueString)
                (b.UpdateStorageVolumeSnapshot r2.trace request volume.UUID
                  state.ID.ValueString) with
            | (r3, .error _) => r3.stop
            | (r3, .ok _) => r3.save data

/-- Method `StorageVolumeSnapshotResource.Delete`.  The id of the prior state is not
tested; the results of the two lookups are dereferenced without a nil test. -/
def StorageVolumeSnapshotResource.Delete (b : Backend) (data : StorageVolumeSnapshotResourceModel) :
    Response StorageVolumeSnapshotResourceModel :=
  match getRestClient b Run.start data.CxProfileName with
  | (r, .error _) => r.stop
  | (r, .ok _) =>
    match GetSvmByName b r data.SVM.Name.ValueString with
    | (r1, .error _) => r1.stop
    | (r1, .ok none) => r1.crash
    | (r1, .ok (some svm)) =>
      match r1.invoke (Call.GetUUIDVolumeByName svm.UUID data.Volume.Name.ValueString)
          (b.GetUUIDVolumeByName r1.trace svm.UUID data.Volume.Name.ValueString) with
      | (r2, .error _) => r2.stop
      | (r2, .ok none) => r2.crash
      | (r2, .ok (some volume)) =>
        match r2.invoke (Call.DeleteStorageVolumeSnapshot volume.UUID data.ID.ValueString)
            (b.DeleteStorageVolumeSnapshot r2.trace volume.UUID data.ID.ValueString) with
        | (r3, .error _) => r3.stop
        | (r3, .ok _) => r3.stop

/-! ## Predicates on calls and sample inputs -/

/-- The call is `InitializeSnapmirror`. -/
def Call.isInitializeSnapmirror : Call → Bool
  | .InitializeSnapmirror _ _ => true
  | _ => false

/-- The call is `DeleteSnapmirror`. -/
def Call.isDeleteSnapmirror : Call → Bool
  | .DeleteSnapmirror _ => true
  | _ => false

/-- The call is `GetSnapmirrorByID`. -/
def Call.isGetSnapmirrorByID : Call → Bool
  | .GetSnapmirrorByID _ => true
  | _ => false

/-- The call is `UpdateStorageVolumeSnapshot` (the PATCH of a snapshot). -/
def Call.isUpdateStorageVolumeSnapshot : Call → Bool
  | .UpdateStorageVolumeSnapshot _ _ _ => true
  | _ => false

/-- The call is `DeleteStorageVolumeSnapshot` (the DELETE of a snapshot). -/
def Call.isDeleteStorageVolumeSnapshot : Call → Bool
  | .DeleteStorageVolumeSnapshot _ _ => true
  | _ => false

/-- A sample backend.  The client is always obtained; a created relationship has
UUID `u1` and reads as `uninitialized` until an initialize call has been issued,
after which it reads as `afterInit`; the initialize call answers `initReply`; the
SVM lookup returns `svm` (none: zero matching records), decoded into the SVM
`svm1` with UUID `s1`; the volume has UUID `v1` and the snapshot UUID `n1`. -/
def sampleBackend (afterInit : String) (initReply : Except Diag Unit) (svm : Option Payload) :
    Backend where
  getRestClient := fun _ => .ok ()
  CreateSnapmirror := fun _ _ => .ok ⟨true, "uninitialized", "u1"⟩
  GetSnapmirrorByID := fun h _ =>
    if h.any Call.isInitializeSnapmirror then .ok ⟨true, afterInit, "u1"⟩
    else .ok ⟨true, "uninitialized", "u1"⟩
  InitializeSnapmirror := fun _ _ _ => initReply
  DeleteSnapmirror := fun _ _ => .ok ()
  GetNilOrOneRecord := fun _ _ _ => .ok (200, svm)
  CallCreateMethod := fun _ _ _ _ => .ok (201, [])
  CallUpdateMethod := fun _ _ _ _ => .ok 200
  decodeSvmGet := fun _ => .ok ⟨"svm1", "s1"⟩
  GetUUIDVolumeByName := fun _ _ _ => .ok (some ⟨"vol1", "v1"⟩)
  CreateStorageVolumeSnapshot := fun _ _ _ => .ok ⟨"snap1", "n1"⟩
  GetStorageVolumeSnapshot := fun _ _ _ => .ok ⟨"snap1", "n1"⟩
  UpdateStorageVolumeSnapshot := fun _ _ _ _ => .ok ()
  DeleteStorageVolumeSnapshot := fun _ _ _ => .ok ()

/-- A sample plan for a relationship, as `Create` receives it: the computed
attributes `healthy`, `state` and `id` are still unknown. -/
def samplePlan : SnapmirrorResourceModel where
  CxProfileName := TfString.known "cluster4"
  SourceEndPoint := ⟨none, TfString.known "svm_src:vol"⟩
  DestinationEndPoint := ⟨none, TfString.known "svm_dst:vol"⟩
  CreateDestination := none
  Initialize := TfBool.known true
  Healthy := TfBool.unknown
  State := TfString.unknown
  ID := TfString.unknown

/-- A sample snapshot state with every optional field set. -/
def sampleSnapshot : StorageVolumeSnapshotResourceModel where
  CxProfileName := TfString.known "cluster4"
  Name := TfString.known "snap1"
  Volume := ⟨TfString.known "vol1"⟩
  SVM := ⟨TfString.known "svm1"⟩
  ExpiryTime := TfString.known "2030-01-01T00:00:00Z"
  SnaplockExpiryTime := TfString.known "2031-01-01T00:00:00Z"
  Comment := TfString.known "nightly"
  SnapmirrorLabel := TfString.known "daily"
  ID := TfString.known "n1"

/-- A sample SVM desired state. -/
def sampleSvm : SvmResourceModel where
  Name := "svm1"
  Ipspace := ⟨"Default"⟩
  SnapshotPolicy := ⟨""⟩
  SubType := ""
  Comment := "test"
  Language := ""
  MaxVolumes := "unlimited"
  Aggregates := [[("name", "aggr1")]]

/-- The prior value is non-empty and the planned value is empty (null or ""). -/
def emptied (plan prior : TfString) : Bool :=
  prior.ValueString != "" && plan.ValueString == ""

/-- Some field among expiry_time, snaplock_expiry_time, comment and snapmirror_label
is non-empty in the prior state and empty in the plan. -/
def emptiesField (data state : StorageVolumeSnapshotResourceModel) : Bool :=
  emptied data.ExpiryTime state.ExpiryTime
    || emptied data.SnaplockExpiryTime state.SnaplockExpiryTime
    || emptied data.Comment state.Comment
    || emptied data.SnapmirrorLabel state.SnapmirrorLabel

/-! ## More of package `interfaces` (svm.go): `CreateSvm`, `ValidateIntORString` -/

/-- Function `CreateSvm`.  The result is the returned pair: a decoded record or an
error, or none when the run is cut short because `response.Records[0]` indexes an
empty slice (the source takes the first record without testing the length).  The
rendering of the struct or of the response in the detail of a failure is left out. -/
def CreateSvm (b : Backend) (r : Run) (data : SvmResourceModel) :
    Run × Option (Except String SvmGetDataModelONTAP) :=
  match decodeSvmResourceModel data with
  | .error err =>
    let rep := r.report "error encoding vserver body" ("error on encoding svm/svms body: " ++ err)
    (rep.1, some (.error (rep.2.getD "")))
  | .ok body =>
    let query : Query := [("return_records", "true")]
    let r1 : Run := ⟨r.diags, r.trace ++ [Call.CallCreateMethod "svm/svms" query body]⟩
    match b.CallCreateMethod r.trace "svm/svms" query body with
    | .error e =>
      let rep := r1.report "error creating vserver"
        ("error on POST svm/svms: " ++ e.message ++ ", statusCode " ++ toString e.statusCode)
      (rep.1, some (.error (rep.2.getD "")))
    | .ok (statusCode, records) =>
      match records with
      | [] => (r1, none)
      | first :: _ =>
        match b.decodeSvmGet first with
        | .error err =>
          let rep := r1.report "failed to decode response from POST svm/svms"
            ("error: " ++ err ++ ", statusCode " ++ toString statusCode)
          (rep.1, some (.error (rep.2.getD "")))
        | .ok dataONTAP => (r1, some (.ok dataONTAP))

/-- Constant `strconv.IntSize`: the size in bits of the Go type `int` (64-bit build). -/
def IntSize : Nat :=
  64

/-- The first magnitude that does not fit a positive `int`: 2 ^ (IntSize - 1). -/
def intCutoff : Nat :=
  2 ^ (IntSize - 1)

/-- Numeric value of an ASCII digit. -/
def digitValue (c : Char) : Nat :=
  c.toNat - 48

/-- The unsigned part of `strconv.Atoi` in base 10: a non-empty run of ASCII digits,
read most significant digit first; anything else is a syntax error (none). -/
def parseUint (cs : List Char) : Option Nat :=
  match cs with
  | [] => none
  | _ => if cs.all Char.isDigit then some (cs.foldl (fun n c => 10 * n + digitValue c) 0) else none

/-- Library function `strconv.Atoi` (base 10): an optional sign, then decimal digits;
the value must fit the type `int`.  Any failure (syntax or range) is none: the
caller only tests whether an error was returned. -/
def Atoi (s : String) : Option Int :=
  match s.data with
  | [] => none
  | c :: rest =>
    let neg := c == '-'
    let digits := if c == '-' || c == '+' then rest else c :: rest
    match parseUint digits with
    | none => none
    | some un =>
      if !neg && un ≥ intCutoff then none
      else if neg && un > intCutoff then none
      else some (if neg then -(un : Int) else (un : Int))

/-- Library function `strconv.Itoa`: the canonical decimal text of an integer, with a
minus sign for a negative one and no other sign or padding. -/
def Itoa (i : Int) : String :=
  if i < 0 then "-" ++ Nat.repr i.natAbs else Nat.repr i.toNat

/-- Function `ValidateIntORString`; the result is the returned error, none for nil. -/
def ValidateIntORString (r : Run) (value astring : String) : Run × Option String :=
  if value == "" || value == astring then (r, none)
  else
    match Atoi value with
    | none =>
      r.report "falied to validate"
        ("Error: expecting int value or \x27" ++ astring ++ "\x27, got: " ++ value)
    | some intValue =>
      let stringValue := Itoa intValue
      if stringValue != value then
        r.report "falied to validate"
          ("Error: expecting int value or \x27" ++ astring ++ "\x27, got: " ++ value)
      else (r, none)

/-! ## Predicates used by the later theorems -/

/-- The call is `GetUUIDVolumeByName` (the volume lookup). -/
def Call.isGetUUIDVolumeByName : Call → Bool
  | .GetUUIDVolumeByName _ _ => true
  | _ => false

/-- The call is `CreateStorageVolumeSnapshot` (the POST of a snapshot). -/
def Call.isCreateStorageVolumeSnapshot : Call → Bool
  | .CreateStorageVolumeSnapshot _ _ => true
  | _ => false

/-- The refusal test of `Update` for one field (`!plan.Equal(prior)` and
`plan.ValueString() == ""`): the plan differs from the prior value, as framework
values, and its text is empty.  This is broader than `emptied`: a change between
null and the known empty string passes this test although the prior text was
already empty. -/
def changedToEmpty (plan prior : TfString) : Bool :=
  !plan.Equal prior && plan.ValueString == ""

/-- Some field among expiry_time, snaplock_expiry_time, comment and snapmirror_label
is changed to an empty text, which is what `Update` refuses.  Every plan that
empties a previously non-empty field (`emptiesField`) is of this kind, and so is
a plan that changes a field between null and the known empty string. -/
def changesFieldToEmpty (data state : StorageVolumeSnapshotResourceModel) : Bool :=
  changedToEmpty data.ExpiryTime state.ExpiryTime
    || changedToEmpty data.SnaplockExpiryTime state.SnaplockExpiryTime
    || changedToEmpty data.Comment state.Comment
    || changedToEmpty data.SnapmirrorLabel state.SnapmirrorLabel

/-- The value a PATCH carries for one field, in the words of the specification: the
value of the plan if it differs from the value of the prior state, the empty
(omitted) value otherwise. -/
def changedValue (plan prior : TfString) : String :=
  if plan.Equal prior then "" else plan.ValueString

/-- The request of a PATCH in the words of the specification: every field carries
its changed value, computed from the plan and the prior state alone. -/
def specRequest (data state : StorageVolumeSnapshotResourceModel) : SnapshotRequest where
  Name := changedValue data.Name state.Name
  ExpiryTime := changedValue data.ExpiryTime state.ExpiryTime
  SnaplockExpiryTime := changedValue data.SnaplockExpiryTime state.SnaplockExpiryTime
  Comment := changedValue data.Comment state.Comment
  SnapmirrorLabel := changedValue data.SnapmirrorLabel state.SnapmirrorLabel

/-- The sample backend with an SVM `s1` on which the volume lookup matches zero
records. -/
def sampleBackendNoVolume : Backend :=
  { sampleBackend "snapmirrored" (.ok ()) (some []) with
    GetUUIDVolumeByName := fun _ _ _ => .ok none }

/-! ## Theorems -/

/-- C1: `SnapmirrorResource.Update` fails for every plan and every prior state, a plan
equal to the prior state included: it reports exactly the error "Update not
supported for snapmirror", issues no call to a collaborator and never passes the
plan to `resp.State.Set`. -/
theorem snapmirror_update_always_fails (b : Backend) (plan state : SnapmirrorResourceModel) :
    (SnapmirrorResource.Update b plan state).diags
        = [⟨"Update not supported for snapmirror", "Update not supported for snapmirror"⟩]
      ∧ (SnapmirrorResource.Update b plan state).HasError = true
      ∧ (SnapmirrorResource.Update b plan state).trace = []
      ∧ (SnapmirrorResource.Update b plan state).saved = none
      ∧ (SnapmirrorResource.Update b plan plan).HasError = true := by
  refine ⟨rfl, rfl, rfl, rfl, rfl⟩

/-! ### The request of a snapshot update -/

/-- A failing bind fails in its first part or in its continuation. -/
theorem except_bind_eq_error {ε α β : Type} (x : Except ε α) (f : α → Except ε β) (e : ε)
    (h : (x >>= f) = .error e) : x = .error e ∨ ∃ a, x = .ok a ∧ f a = .error e := by
  cases x with
  | error e1 => left; simpa [bind, Except.bind] using h
  | ok a => right; exact ⟨a, rfl, by simpa [bind, Except.bind] using h⟩

/-- A successful bind succeeds in both parts. -/
theorem except_bind_eq_ok {ε α β : Type} (x : Except ε α) (f : α → Except ε β) (y : β)
    (h : (x >>= f) = .ok y) : ∃ a, x = .ok a ∧ f a = .ok y := by
  cases x with
  | error e1 => simp [bind, Except.bind] at h
  | ok a => exact ⟨a, rfl, by simpa [bind, Except.bind] using h⟩

/-- One field block of `Update` fails only by reporting: the field changed and is empty. -/
theorem field_step_eq_error {α : Type} (c e : Bool) (d x : Run) (v w : α)
    (h : (if c = true then (if e = true then throw d else pure v) else pure w : Except Run α)
      = .error x) :
    x = d ∧ c = true ∧ e = true := by
  cases c <;> cases e <;> simp [throw, throwThe, MonadExceptOf.throw, pure, Except.pure] at h
  exact ⟨h.symm, rfl, rfl⟩

/-- One field block of `Update` that goes on did not see a change to the empty string. -/
theorem field_step_eq_ok {α : Type} (c e : Bool) (d : Run) (v w a : α)
    (h : (if c = true then (if e = true then throw d else pure v) else pure w : Except Run α)
      = .ok a) :
    ¬ (c = true ∧ e = true) ∧ a = (if c = true then v else w) := by
  cases c <;> cases e <;>
    simp [throw, throwThe, MonadExceptOf.throw, pure, Except.pure] at h <;> simp [h]

/-- When the request of an update is refused, exactly one diagnostic has been added
and no call has been issued. -/
theorem update_request_error_run (r : Run) (data state : StorageVolumeSnapshotResourceModel)
    (r3 : Run) (h : StorageVolumeSnapshotResource.Update.request r data state = .error r3) :
    r3.trace = r.trace ∧ ∃ d, r3.diags = r.diags ++ [d] := by
  unfold StorageVolumeSnapshotResource.Update.request at h
  rcases except_bind_eq_error _ _ _ h with h1 | ⟨_, -, h⟩
  · rw [(field_step_eq_error _ _ _ _ _ _ h1).1]; exact ⟨rfl, _, rfl⟩
  rcases except_bind_eq_error _ _ _ h with h1 | ⟨_, -, h⟩
  · rw [(field_step_eq_error _ _ _ _ _ _ h1).1]; exact ⟨rfl, _, rfl⟩
  rcases except_bind_eq_error _ _ _ h with h1 | ⟨_, -, h⟩
  · rw [(field_step_eq_error _ _ _ _ _ _ h1).1]; exact ⟨rfl, _, rfl⟩
  rcases except_bind_eq_error _ _ _ h with h1 | ⟨_, -, h⟩
  · rw [(field_step_eq_error _ _ _ _ _ _ h1).1]; exact ⟨rfl, _, rfl⟩
  simp [pure, Except.pure] at h

/-- When the request of an update is built, no field changed to the empty string. -/
theorem update_request_ok_fields (r : Run) (data state : StorageVolumeSnapshotResourceModel)
    (req : SnapshotRequest)
    (h : StorageVolumeSnapshotResource.Update.request r data state = .ok req) :
    ¬ ((!data.ExpiryTime.Equal state.ExpiryTime) = true
        ∧ (data.ExpiryTime.ValueString == "") = true)
    ∧ ¬ ((!data.SnaplockExpiryTime.Equal state.SnaplockExpiryTime) = true
        ∧ (data.SnaplockExpiryTime.ValueString == "") = true)
    ∧ ¬ ((!data.Comment.Equal state.Comment) = true ∧ (data.Comment.ValueString == "") = true)
    ∧ ¬ ((!data.SnapmirrorLabel.Equal state.SnapmirrorLabel) = true
        ∧ (data.SnapmirrorLabel.ValueString == "") = true) := by
  unfold StorageVolumeSnapshotResource.Update.request at h
  obtain ⟨_, h1, h⟩ := except_bind_eq_ok _ _ _ h
  obtain ⟨_, h2, h⟩ := except_bind_eq_ok _ _ _ h
  obtain ⟨_, h3, h⟩ := except_bind_eq_ok _ _ _ h
  obtain ⟨_, h4, h⟩ := except_bind_eq_ok _ _ _ h
  exact ⟨(field_step_eq_ok _ _ _ _ _ _ h1).1, (field_step_eq_ok _ _ _ _ _ _ h2).1,
    (field_step_eq_ok _ _ _ _ _ _ h3).1, (field_step_eq_ok _ _ _ _ _ _ h4).1⟩

/-- A field emptied by the plan differs from its prior value and reads as "". -/
theorem emptied_changed (plan prior : TfString) (h : emptied plan prior = true) :
    (!plan.Equal prior) = true ∧ (plan.ValueString == "") = true := by
  cases plan <;> cases prior <;>
    simp_all [emptied, TfString.Equal, TfString.ValueString]
  rename_i s t
  intro hst
  subst hst
  simp_all

/-- A plan that empties a field never yields a request. -/
theorem update_request_emptied (r : Run) (data state : StorageVolumeSnapshotResourceModel)
    (h : emptiesField data state = true) :
    ∃ r3, StorageVolumeSnapshotResource.Update.request r data state = .error r3 := by
  cases hreq : StorageVolumeSnapshotResource.Update.request r data state with
  | error r3 => exact ⟨r3, rfl⟩
  | ok req =>
    obtain ⟨h1, h2, h3, h4⟩ := update_request_ok_fields r data state req hreq
    simp only [emptiesField, Bool.or_eq_true] at h
    rcases h with ((h | h) | h) | h
    · exact absurd (emptied_changed _ _ h) h1
    · exact absurd (emptied_changed _ _ h) h2
    · exact absurd (emptied_changed _ _ h) h3
    · exact absurd (emptied_changed _ _ h) h4

/-- Whenever the plan empties one of the four optional fields, `Update` issues no
PATCH and saves nothing, and it reports an error unless it is cut short by the nil
dereference of the SVM lookup result. -/
theorem snapshot_update_emptied_general (b : Backend)
    (data state : StorageVolumeSnapshotResourceModel) (h : emptiesField data state = true) :
    (StorageVolumeSnapshotResource.Update b data state).trace.any
        Call.isUpdateStorageVolumeSnapshot = false
      ∧ (StorageVolumeSnapshotResource.Update b data state).saved = none
      ∧ ((StorageVolumeSnapshotResource.Update b data state).panicked = false →
          (StorageVolumeSnapshotResource.Update b data state).HasError = true) := by
  unfold StorageVolumeSnapshotResource.Update
  simp only [getRestClient, GetSvmByName, Run.invoke, Run.report, MakeAndReportError, Run.start]
  cases b.getRestClient data.CxProfileName with
  | error d => simp [Run.stop, Response.HasError]
  | ok u =>
    simp only []
    cases b.GetNilOrOneRecord [] "svm/svms" [("name", data.SVM.Name.ValueString)] with
    | error e => simp [Run.stop, Response.HasError, Call.isUpdateStorageVolumeSnapshot]
    | ok p =>
      obtain ⟨status, response⟩ := p
      cases response with
      | none => simp [Run.crash, Call.isUpdateStorageVolumeSnapshot]
      | some rec =>
        simp only []
        cases b.decodeSvmGet rec with
        | error err => simp [Run.stop, Response.HasError, Call.isUpdateStorageVolumeSnapshot]
        | ok svm =>
          simp only []
          obtain ⟨r3, hreq⟩ := update_request_emptied
            ⟨[], [] ++ [Call.GetNilOrOneRecord "svm/svms" [("name", data.SVM.Name.ValueString)]]
              ++ [Call.GetUUIDVolumeByName svm.UUID data.Volume.Name.ValueString]⟩ data state h
          obtain ⟨ht, d, hd⟩ := update_request_error_run _ _ _ _ hreq
          cases b.GetUUIDVolumeByName
              ([] ++ [Call.GetNilOrOneRecord "svm/svms" [("name", data.SVM.Name.ValueString)]])
              svm.UUID data.Volume.Name.ValueString with
          | error d => simp [Run.stop, Response.HasError, Call.isUpdateStorageVolumeSnapshot]
          | ok volume =>
            simp only [hreq]
            simp [Run.stop, Response.HasError, Call.isUpdateStorageVolumeSnapshot, ht, hd]

/-- C2 (failing input): the prior state has a comment, the plan has none, and the SVM
lookup matches zero records.  `Update` dereferences the nil result at `svm.UUID`
before it reaches the empty-value checks: the run ends in a nil dereference after
the lookup alone, with no diagnostic reported, no PATCH and nothing saved. -/
theorem snapshot_update_emptied_comment_crash :
    emptiesField { sampleSnapshot with Comment := TfString.null } sampleSnapshot = true
      ∧ StorageVolumeSnapshotResource.Update (sampleBackend "snapmirrored" (.ok ()) none)
          { sampleSnapshot with Comment := TfString.null } sampleSnapshot
        = ⟨[], [Call.GetNilOrOneRecord "svm/svms" [("name", "svm1")]], none, true⟩
      ∧ (StorageVolumeSnapshotResource.Update (sampleBackend "snapmirrored" (.ok ()) none)
          { sampleSnapshot with Comment := TfString.null } sampleSnapshot).HasError = false := by
  refine ⟨by decide, by decide, by decide⟩

/-! ### The PATCH body of `UpdateSvm` -/

/-- Deleting a key leaves the value under every other key unchanged. -/
theorem payload_get_delete_ne (body : Payload) (key other : String) (h : other ≠ key) :
    Payload.get (Payload.delete body key) other = Payload.get body other := by
  induction body with
  | nil => rfl
  | cons kv rest ih =>
    unfold Payload.get Payload.delete at ih ⊢
    rw [List.filter_cons]
    by_cases hk : kv.1 = key
    · have hne : (kv.1 != key) = false := by simp [hk]
      have hko : (kv.1 == other) = false := by
        simp only [beq_eq_false_iff_ne, ne_eq]
        intro e
        exact h (e ▸ hk)
      rw [hne, List.find?_cons, hko]
      exact ih
    · have hne : (kv.1 != key) = true := by simp [hk]
      rw [hne, if_pos rfl, List.find?_cons, List.find?_cons]
      cases hko : (kv.1 == other)
      · exact ih
      · rfl

/-- After deleting a key, the payload has no entry under it. -/
theorem payload_get_delete_self (body : Payload) (key : String) :
    Payload.get (Payload.delete body key) key = none := by
  induction body with
  | nil => rfl
  | cons kv rest ih =>
    unfold Payload.get Payload.delete at ih ⊢
    rw [List.filter_cons]
    by_cases hk : kv.1 = key
    · have hne : (kv.1 != key) = false := by simp [hk]
      rw [hne]
      exact ih
    · have hne : (kv.1 != key) = true := by simp [hk]
      have hko : (kv.1 == key) = false := by simp [hk]
      rw [hne, if_pos rfl, List.find?_cons, hko]
      exact ih

/-- C3: for every `SvmResourceModel` and uuid, `UpdateSvm` issues one PATCH to
`svm/svms/uuid` whose body is the generic payload decoded from the data with the
key "name" deleted when `rename` is false (whatever `data.Name` is), and the
generic payload unchanged, with "name" present, when `rename` is true; the two
bodies agree on every key other than "name". -/
theorem updateSvm_patch_body (b : Backend) (r : Run) (data : SvmResourceModel) (uuid : String) :
    ∃ generic : Payload, decodeSvmResourceModel data = .ok generic
      ∧ Payload.get generic "name" = some (PayloadValue.str data.Name)
      ∧ (UpdateSvm b r data uuid false).1.trace
          = r.trace ++ [Call.CallUpdateMethod ("svm/svms/" ++ uuid) [("return_records", "true")]
              (Payload.delete generic "name")]
      ∧ Payload.get (Payload.delete generic "name") "name" = none
      ∧ (UpdateSvm b r data uuid true).1.trace
          = r.trace ++ [Call.CallUpdateMethod ("svm/svms/" ++ uuid) [("return_records", "true")]
              generic]
      ∧ ∀ key : String, key ≠ "name" →
          Payload.get (Payload.delete generic "name") key = Payload.get generic key := by
  refine ⟨_, rfl, ?_, ?_, payload_get_delete_self _ _, ?_, fun key h => payload_get_delete_ne _ _ _ h⟩
  · simp [Payload.get]
  · simp only [UpdateSvm, decodeSvmResourceModel, Run.report, MakeAndReportError]
    split <;> rfl
  · simp only [UpdateSvm, decodeSvmResourceModel, Run.report, MakeAndReportError]
    split <;> rfl

/-! ### `SnapmirrorResource.Delete` -/

/-- C4 (counterexample): a prior state whose id is the known empty string passes the
guard on null: `Delete` reports no error and calls `DeleteSnapmirror` with the empty
uuid. -/
theorem snapmirror_delete_empty_id_calls_delete :
    ({ samplePlan with ID := TfString.known "" } : SnapmirrorResourceModel).ID.ValueString = ""
      ∧ SnapmirrorResource.Delete (sampleBackend "snapmirrored" (.ok ()) none)
          { samplePlan with ID := TfString.known "" }
        = ⟨[], [Call.DeleteSnapmirror ""], none, false⟩
      ∧ (SnapmirrorResource.Delete (sampleBackend "snapmirrored" (.ok ()) none)
          { samplePlan with ID := TfString.known "" }).HasError = false := by
  refine ⟨by decide, by decide, by decide⟩

/-- C4 (amended): for every prior state whose id is null, `Delete` reports an error and
issues no call at all, so `DeleteSnapmirror` is never called; for an id that is not
null, the known empty string included, `Delete` calls `DeleteSnapmirror` with the
text of that id once the client is obtained. -/
theorem snapmirror_delete_id_guard (b : Backend) (data : SnapmirrorResourceModel) :
    (data.ID = TfString.null →
        (SnapmirrorResource.Delete b data).HasError = true
          ∧ (SnapmirrorResource.Delete b data).trace = []
          ∧ (SnapmirrorResource.Delete b data).trace.any Call.isDeleteSnapmirror = false)
      ∧ (data.ID ≠ TfString.null → b.getRestClient data.CxProfileName = .ok () →
          (SnapmirrorResource.Delete b data).trace
            = [Call.DeleteSnapmirror data.ID.ValueString]) := by
  constructor
  · intro h
    simp only [SnapmirrorResource.Delete, getRestClient, Run.start, h, TfString.IsNull]
    cases b.getRestClient data.CxProfileName <;>
      simp [Run.stop, Run.report, MakeAndReportError, Response.HasError]
  · intro h hc
    have hn : data.ID.IsNull = false := by
      cases hid : data.ID <;> simp_all [TfString.IsNull]
    simp only [SnapmirrorResource.Delete, getRestClient, Run.start, hc, hn, Run.invoke]
    cases b.DeleteSnapmirror [] data.ID.ValueString <;> simp [Run.stop]

/-- C4 (witness): the amended statement at a null id and at the known empty id. -/
theorem snapmirror_delete_id_guard_witness :
    ((SnapmirrorResource.Delete (sampleBackend "snapmirrored" (.ok ()) none)
          { samplePlan with ID := TfString.null }).HasError = true
        ∧ (SnapmirrorResource.Delete (sampleBackend "snapmirrored" (.ok ()) none)
          { samplePlan with ID := TfString.null }).trace = []
        ∧ (SnapmirrorResource.Delete (sampleBackend "snapmirrored" (.ok ()) none)
          { samplePlan with ID := TfString.null }).trace.any Call.isDeleteSnapmirror = false)
      ∧ (SnapmirrorResource.Delete (sampleBackend "snapmirrored" (.ok ()) none)
          { samplePlan with ID := TfString.known "" }).trace
        = [Call.DeleteSnapmirror
            ({ samplePlan with ID := TfString.known "" } : SnapmirrorResourceModel).ID.ValueString] :=
  ⟨(snapmirror_delete_id_guard (sampleBackend "snapmirrored" (.ok ()) none)
      { samplePlan with ID := TfString.null }).1 rfl,
   (snapmirror_delete_id_guard (sampleBackend "snapmirrored" (.ok ()) none)
      { samplePlan with ID := TfString.known "" }).2 (by decide) rfl⟩

/-! ### `StorageVolumeSnapshotResource.Delete` -/

/-- C5 (failing input): with a prior state whose id is null, or the known empty
string, and lookups that resolve, `Delete` reports no error and calls
`DeleteStorageVolumeSnapshot` for the resolved volume with the empty id. -/
theorem snapshot_delete_unset_id_calls_delete :
    StorageVolumeSnapshotResource.Delete (sampleBackend "snapmirrored" (.ok ()) (some []))
        { sampleSnapshot with ID := TfString.null }
      = ⟨[], [Call.GetNilOrOneRecord "svm/svms" [("name", "svm1")],
            Call.GetUUIDVolumeByName "s1" "vol1",
            Call.DeleteStorageVolumeSnapshot "v1" ""], none, false⟩
    ∧ StorageVolumeSnapshotResource.Delete (sampleBackend "snapmirrored" (.ok ()) (some []))
        { sampleSnapshot with ID := TfString.known "" }
      = ⟨[], [Call.GetNilOrOneRecord "svm/svms" [("name", "svm1")],
            Call.GetUUIDVolumeByName "s1" "vol1",
            Call.DeleteStorageVolumeSnapshot "v1" ""], none, false⟩
    ∧ (StorageVolumeSnapshotResource.Delete (sampleBackend "snapmirrored" (.ok ()) (some []))
        { sampleSnapshot with ID := TfString.null }).HasError = false := by
  refine ⟨by decide, by decide, by decide⟩

/-! ### `SnapmirrorResource.Create` -/

/-- The text of a known value. -/
theorem valueString_known (s : String) : (TfString.known s).ValueString = s :=
  rfl

/-- `Create` when the initialize step is triggered: the wait, the initialize call
and, if that call succeeds, the read under the created UUID. -/
theorem snapmirror_create_triggered (b : Backend) (data : SnapmirrorResourceModel)
    (resource restInfo : SnapmirrorGetDataModelONTAP)
    (hclient : b.getRestClient data.CxProfileName = .ok ())
    (hcreate : b.CreateSnapmirror [] (SnapmirrorResource.Create.body data) = .ok resource)
    (hread : b.GetSnapmirrorByID [Call.CreateSnapmirror (SnapmirrorResource.Create.body data)]
      data.ID.ValueString = .ok restInfo)
    (hflag : data.Initialize.ValueBool = true) (hstate : restInfo.State = "uninitialized") :
    SnapmirrorResource.Create b data
      = match b.InitializeSnapmirror
            [Call.CreateSnapmirror (SnapmirrorResource.Create.body data),
              Call.GetSnapmirrorByID data.ID.ValueString, Call.Sleep 3]
            resource.UUID "snapmirrored" with
        | .error d =>
          ⟨[d], [Call.CreateSnapmirror (SnapmirrorResource.Create.body data),
            Call.GetSnapmirrorByID data.ID.ValueString, Call.Sleep 3,
            Call.InitializeSnapmirror resource.UUID "snapmirrored"], none, false⟩
        | .ok _ =>
          match b.GetSnapmirrorByID
              [Call.CreateSnapmirror (SnapmirrorResource.Create.body data),
                Call.GetSnapmirrorByID data.ID.ValueString, Call.Sleep 3,
                Call.InitializeSnapmirror resource.UUID "snapmirrored"]
              resource.UUID with
          | .error d =>
            ⟨[d], [Call.CreateSnapmirror (SnapmirrorResource.Create.body data),
              Call.GetSnapmirrorByID data.ID.ValueString, Call.Sleep 3,
              Call.InitializeSnapmirror resource.UUID "snapmirrored",
              Call.GetSnapmirrorByID resource.UUID], none, false⟩
          | .ok restInfo2 =>
            ⟨[], [Call.CreateSnapmirror (SnapmirrorResource.Create.body data),
              Call.GetSnapmirrorByID data.ID.ValueString, Call.Sleep 3,
              Call.InitializeSnapmirror resource.UUID "snapmirrored",
              Call.GetSnapmirrorByID resource.UUID],
              some { data with
                Healthy := TfBool.known restInfo2.Healthy
                State := TfString.known restInfo2.State
                ID := TfString.known resource.UUID }, false⟩ := by
  simp only [SnapmirrorResource.Create, getRestClient, Run.start, hclient, Run.invoke,
    List.nil_append, hcreate, hread, valueString_known, SnapmirrorResource.Create.finish,
    hflag, hstate, List.singleton_append, List.cons_append, beq_self_eq_true, Bool.and_self,
    if_true]
  cases b.InitializeSnapmirror
      [Call.CreateSnapmirror (SnapmirrorResource.Create.body data),
        Call.GetSnapmirrorByID data.ID.ValueString, Call.Sleep 3]
      resource.UUID "snapmirrored" with
  | error d => rfl
  | ok u =>
    simp only []
    cases b.GetSnapmirrorByID
        [Call.CreateSnapmirror (SnapmirrorResource.Create.body data),
          Call.GetSnapmirrorByID data.ID.ValueString, Call.Sleep 3,
          Call.InitializeSnapmirror resource.UUID "snapmirrored"]
        resource.UUID with
    | error d => rfl
    | ok restInfo2 => rfl

/-- `Create` when the initialize step is not triggered: the read under the created
UUID follows the first read directly. -/
theorem snapmirror_create_untriggered (b : Backend) (data : SnapmirrorResourceModel)
    (resource restInfo : SnapmirrorGetDataModelONTAP)
    (hclient : b.getRestClient data.CxProfileName = .ok ())
    (hcreate : b.CreateSnapmirror [] (SnapmirrorResource.Create.body data) = .ok resource)
    (hread : b.GetSnapmirrorByID [Call.CreateSnapmirror (SnapmirrorResource.Create.body data)]
      data.ID.ValueString = .ok restInfo)
    (hcond : ¬ (data.Initialize.ValueBool = true ∧ restInfo.State = "uninitialized")) :
    SnapmirrorResource.Create b data
      = match b.GetSnapmirrorByID
            [Call.CreateSnapmirror (SnapmirrorResource.Create.body data),
              Call.GetSnapmirrorByID data.ID.ValueString]
            resource.UUID with
        | .error d =>
          ⟨[d], [Call.CreateSnapmirror (SnapmirrorResource.Create.body data),
            Call.GetSnapmirrorByID data.ID.ValueString,
            Call.GetSnapmirrorByID resource.UUID], none, false⟩
        | .ok restInfo2 =>
          ⟨[], [Call.CreateSnapmirror (SnapmirrorResource.Create.body data),
            Call.GetSnapmirrorByID data.ID.ValueString,
            Call.GetSnapmirrorByID resource.UUID],
            some { data with
              Healthy := TfBool.known restInfo2.Healthy
              State := TfString.known restInfo2.State
              ID := TfString.known resource.UUID }, false⟩ := by
  have hc : (data.Initialize.ValueBool && restInfo.State == "uninitialized") = false := by
    simpa using hcond
  simp only [SnapmirrorResource.Create, getRestClient, Run.start, hclient, Run.invoke,
    List.nil_append, hcreate, hread, valueString_known, SnapmirrorResource.Create.finish,
    List.singleton_append, List.cons_append, hc]
  cases b.GetSnapmirrorByID
      [Call.CreateSnapmirror (SnapmirrorResource.Create.body data),
        Call.GetSnapmirrorByID data.ID.ValueString]
      resource.UUID with
  | error d => rfl
  | ok restInfo2 => rfl

/-- C6: in `Create`, once the client is obtained and the create call and the first
read have succeeded, `InitializeSnapmirror` is called if and only if the initialize
flag of the plan is true and the state just read is "uninitialized"; when called, it
is called exactly once, with the UUID returned by the create call and the target
"snapmirrored". -/
theorem snapmirror_create_initialize_trigger (b : Backend) (data : SnapmirrorResourceModel)
    (resource restInfo : SnapmirrorGetDataModelONTAP)
    (hclient : b.getRestClient data.CxProfileName = .ok ())
    (hcreate : b.CreateSnapmirror [] (SnapmirrorResource.Create.body data) = .ok resource)
    (hread : b.GetSnapmirrorByID [Call.CreateSnapmirror (SnapmirrorResource.Create.body data)]
      data.ID.ValueString = .ok restInfo) :
    (SnapmirrorResource.Create b data).trace.filter Call.isInitializeSnapmirror
        = (if data.Initialize.ValueBool = true ∧ restInfo.State = "uninitialized"
          then [Call.InitializeSnapmirror resource.UUID "snapmirrored"] else [])
      ∧ ((SnapmirrorResource.Create b data).trace.any Call.isInitializeSnapmirror = true
          ↔ (data.Initialize.ValueBool = true ∧ restInfo.State = "uninitialized")) := by
  by_cases hc : data.Initialize.ValueBool = true ∧ restInfo.State = "uninitialized"
  · rw [snapmirror_create_triggered b data resource restInfo hclient hcreate hread hc.1 hc.2,
      if_pos hc]
    cases b.InitializeSnapmirror
        [Call.CreateSnapmirror (SnapmirrorResource.Create.body data),
          Call.GetSnapmirrorByID data.ID.ValueString, Call.Sleep 3]
        resource.UUID "snapmirrored" with
    | error d => simp [Call.isInitializeSnapmirror, hc]
    | ok u =>
      cases b.GetSnapmirrorByID
          [Call.CreateSnapmirror (SnapmirrorResource.Create.body data),
            Call.GetSnapmirrorByID data.ID.ValueString, Call.Sleep 3,
            Call.InitializeSnapmirror resource.UUID "snapmirrored"]
          resource.UUID <;> simp [Call.isInitializeSnapmirror, hc]
  · rw [snapmirror_create_untriggered b data resource restInfo hclient hcreate hread hc,
      if_neg hc]
    cases b.GetSnapmirrorByID
        [Call.CreateSnapmirror (SnapmirrorResource.Create.body data),
          Call.GetSnapmirrorByID data.ID.ValueString]
        resource.UUID <;> simp [Call.isInitializeSnapmirror, hc]

/-- C6 (witness): a plan asking for initialization, on a backend whose new
relationship `u1` reads as "uninitialized". -/
theorem snapmirror_create_initialize_trigger_witness :
    (SnapmirrorResource.Create (sampleBackend "snapmirrored" (.ok ()) none) samplePlan).trace.filter
          Call.isInitializeSnapmirror
        = (if samplePlan.Initialize.ValueBool = true
            ∧ (⟨true, "uninitialized", "u1"⟩ : SnapmirrorGetDataModelONTAP).State = "uninitialized"
          then [Call.InitializeSnapmirror
            (⟨true, "uninitialized", "u1"⟩ : SnapmirrorGetDataModelONTAP).UUID "snapmirrored"]
          else [])
      ∧ ((SnapmirrorResource.Create (sampleBackend "snapmirrored" (.ok ()) none) samplePlan).trace.any
            Call.isInitializeSnapmirror = true
          ↔ (samplePlan.Initialize.ValueBool = true
            ∧ (⟨true, "uninitialized", "u1"⟩ : SnapmirrorGetDataModelONTAP).State
              = "uninitialized")) :=
  snapmirror_create_initialize_trigger (sampleBackend "snapmirrored" (.ok ()) none) samplePlan
    ⟨true, "uninitialized", "u1"⟩ ⟨true, "uninitialized", "u1"⟩ rfl rfl rfl

/-- C7 (counterexample): initialization is requested, the state read before the
initialize call is "uninitialized", the backend still answers "uninitialized" to the
read that follows the initialize call, and `Create` completes without error: the
state it saves is "uninitialized". -/
theorem snapmirror_create_saves_uninitialized :
    samplePlan.Initialize.ValueBool = true
      ∧ (sampleBackend "uninitialized" (.ok ()) none).GetSnapmirrorByID
          [Call.CreateSnapmirror (SnapmirrorResource.Create.body samplePlan)]
          samplePlan.ID.ValueString = .ok ⟨true, "uninitialized", "u1"⟩
      ∧ (SnapmirrorResource.Create (sampleBackend "uninitialized" (.ok ()) none)
          samplePlan).HasError = false
      ∧ (SnapmirrorResource.Create (sampleBackend "uninitialized" (.ok ()) none)
          samplePlan).saved
        = some { samplePlan with
            Healthy := TfBool.known true
            State := TfString.known "uninitialized"
            ID := TfString.known "u1" } := by
  refine ⟨by decide, rfl, by decide, by decide⟩

/-- C7 (amended): whenever `Create` completes with a saved state, initialization
requested and a state of "uninitialized" read before the initialize call, the saved
state is the one returned by the single read issued after the initialize call; it
differs from "uninitialized" exactly when that read returned another state. -/
theorem snapmirror_create_saved_state (b : Backend) (data saved : SnapmirrorResourceModel)
    (resource restInfo : SnapmirrorGetDataModelONTAP)
    (hclient : b.getRestClient data.CxProfileName = .ok ())
    (hcreate : b.CreateSnapmirror [] (SnapmirrorResource.Create.body data) = .ok resource)
    (hread : b.GetSnapmirrorByID [Call.CreateSnapmirror (SnapmirrorResource.Create.body data)]
      data.ID.ValueString = .ok restInfo)
    (hflag : data.Initialize.ValueBool = true) (hstate : restInfo.State = "uninitialized")
    (hsaved : (SnapmirrorResource.Create b data).saved = some saved) :
    ∃ restInfo2 : SnapmirrorGetDataModelONTAP,
      b.GetSnapmirrorByID
          [Call.CreateSnapmirror (SnapmirrorResource.Create.body data),
            Call.GetSnapmirrorByID data.ID.ValueString, Call.Sleep 3,
            Call.InitializeSnapmirror resource.UUID "snapmirrored"]
          resource.UUID = .ok restInfo2
        ∧ saved.State = TfString.known restInfo2.State
        ∧ (saved.State ≠ TfString.known "uninitialized" ↔ restInfo2.State ≠ "uninitialized") := by
  rw [snapmirror_create_triggered b data resource restInfo hclient hcreate hread hflag hstate]
    at hsaved
  cases hi : b.InitializeSnapmirror
      [Call.CreateSnapmirror (SnapmirrorResource.Create.body data),
        Call.GetSnapmirrorByID data.ID.ValueString, Call.Sleep 3]
      resource.UUID "snapmirrored" with
  | error d => simp [hi] at hsaved
  | ok u =>
    cases hr : b.GetSnapmirrorByID
        [Call.CreateSnapmirror (SnapmirrorResource.Create.body data),
          Call.GetSnapmirrorByID data.ID.ValueString, Call.Sleep 3,
          Call.InitializeSnapmirror resource.UUID "snapmirrored"]
        resource.UUID with
    | error d => simp [hi, hr] at hsaved
    | ok restInfo2 =>
      simp only [hi, hr, Option.some.injEq] at hsaved
      subst hsaved
      exact ⟨restInfo2, rfl, rfl, by simp⟩

/-- C7 (witness): on a backend that reads as "snapmirrored" after the initialize
call, the saved state is "snapmirrored". -/
theorem snapmirror_create_saved_state_witness :
    ∃ restInfo2 : SnapmirrorGetDataModelONTAP,
      (sampleBackend "snapmirrored" (.ok ()) none).GetSnapmirrorByID
          [Call.CreateSnapmirror (SnapmirrorResource.Create.body samplePlan),
            Call.GetSnapmirrorByID samplePlan.ID.ValueString, Call.Sleep 3,
            Call.InitializeSnapmirror
              (⟨true, "uninitialized", "u1"⟩ : SnapmirrorGetDataModelONTAP).UUID "snapmirrored"]
          (⟨true, "uninitialized", "u1"⟩ : SnapmirrorGetDataModelONTAP).UUID = .ok restInfo2
        ∧ ({ samplePlan with
              Healthy := TfBool.known true
              State := TfString.known "snapmirrored"
              ID := TfString.known "u1" } : SnapmirrorResourceModel).State
            = TfString.known restInfo2.State
        ∧ (({ samplePlan with
              Healthy := TfBool.known true
              State := TfString.known "snapmirrored"
              ID := TfString.known "u1" } : SnapmirrorResourceModel).State
              ≠ TfString.known "uninitialized"
            ↔ restInfo2.State ≠ "uninitialized") :=
  snapmirror_create_saved_state (sampleBackend "snapmirrored" (.ok ()) none) samplePlan
    { samplePlan with
      Healthy := TfBool.known true
      State := TfString.known "snapmirrored"
      ID := TfString.known "u1" }
    ⟨true, "uninitialized", "u1"⟩ ⟨true, "uninitialized", "u1"⟩ rfl rfl rfl rfl rfl (by decide)

/-- C8 (counterexample): with the initialize step triggered, the calls of `Create` are,
in order: create, first read, the wait of 3 seconds, the initialize call, the read
under the created UUID.  The wait comes before the initialize call, and nothing
lies between the initialize call and the read that follows it. -/
theorem snapmirror_create_waits_before_initialize :
    (SnapmirrorResource.Create (sampleBackend "snapmirrored" (.ok ()) none) samplePlan).trace
        = [Call.CreateSnapmirror (SnapmirrorResource.Create.body samplePlan),
            Call.GetSnapmirrorByID "", Call.Sleep 3,
            Call.InitializeSnapmirror "u1" "snapmirrored", Call.GetSnapmirrorByID "u1"]
      ∧ List.indexOf (Call.Sleep 3)
          (SnapmirrorResource.Create (sampleBackend "snapmirrored" (.ok ()) none) samplePlan).trace
        < List.indexOf (Call.InitializeSnapmirror "u1" "snapmirrored")
          (SnapmirrorResource.Create (sampleBackend "snapmirrored" (.ok ()) none)
            samplePlan).trace := by
  refine ⟨by decide, by decide⟩

/-- C8 (amended): when the initialize step is triggered and the initialize call
succeeds, the calls of `Create` are, in order: create, first read, the fixed wait
of 3 seconds, the initialize call, then the read under the created UUID; the wait
lies between the first read and the initialize call, and the read that refreshes
state and health follows the initialize call directly. -/
theorem snapmirror_create_initialize_order (b : Backend) (data : SnapmirrorResourceModel)
    (resource restInfo : SnapmirrorGetDataModelONTAP)
    (hclient : b.getRestClient data.CxProfileName = .ok ())
    (hcreate : b.CreateSnapmirror [] (SnapmirrorResource.Create.body data) = .ok resource)
    (hread : b.GetSnapmirrorByID [Call.CreateSnapmirror (SnapmirrorResource.Create.body data)]
      data.ID.ValueString = .ok restInfo)
    (hflag : data.Initialize.ValueBool = true) (hstate : restInfo.State = "uninitialized")
    (hinit : b.InitializeSnapmirror
        [Call.CreateSnapmirror (SnapmirrorResource.Create.body data),
          Call.GetSnapmirrorByID data.ID.ValueString, Call.Sleep 3]
        resource.UUID "snapmirrored" = .ok ()) :
    (SnapmirrorResource.Create b data).trace
      = [Call.CreateSnapmirror (SnapmirrorResource.Create.body data),
          Call.GetSnapmirrorByID data.ID.ValueString, Call.Sleep 3,
          Call.InitializeSnapmirror resource.UUID "snapmirrored",
          Call.GetSnapmirrorByID resource.UUID] := by
  rw [snapmirror_create_triggered b data resource restInfo hclient hcreate hread hflag hstate]
  simp only [hinit]
  cases b.GetSnapmirrorByID
      [Call.CreateSnapmirror (SnapmirrorResource.Create.body data),
        Call.GetSnapmirrorByID data.ID.ValueString, Call.Sleep 3,
        Call.InitializeSnapmirror resource.UUID "snapmirrored"]
      resource.UUID <;> rfl

/-- C8 (witness): the order of calls on the sample backend. -/
theorem snapmirror_create_initialize_order_witness :
    (SnapmirrorResource.Create (sampleBackend "snapmirrored" (.ok ()) none) samplePlan).trace
      = [Call.CreateSnapmirror (SnapmirrorResource.Create.body samplePlan),
          Call.GetSnapmirrorByID samplePlan.ID.ValueString, Call.Sleep 3,
          Call.InitializeSnapmirror
            (⟨true, "uninitialized", "u1"⟩ : SnapmirrorGetDataModelONTAP).UUID "snapmirrored",
          Call.GetSnapmirrorByID
            (⟨true, "uninitialized", "u1"⟩ : SnapmirrorGetDataModelONTAP).UUID] :=
  snapmirror_create_initialize_order (sampleBackend "snapmirrored" (.ok ()) none) samplePlan
    ⟨true, "uninitialized", "u1"⟩ ⟨true, "uninitialized", "u1"⟩ rfl rfl rfl rfl rfl rfl

/-- C9: in `Create`, if `InitializeSnapmirror` returns an error then `Create` stops at
once: the initialize call is the last call (no read follows, and no delete or other
compensating call is issued for the relationship already created), the error is the
only diagnostic, and no state, hence no id, is saved. -/
theorem snapmirror_create_initialize_failure (b : Backend) (data : SnapmirrorResourceModel)
    (resource restInfo : SnapmirrorGetDataModelONTAP) (d : Diag)
    (hclient : b.getRestClient data.CxProfileName = .ok ())
    (hcreate : b.CreateSnapmirror [] (SnapmirrorResource.Create.body data) = .ok resource)
    (hread : b.GetSnapmirrorByID [Call.CreateSnapmirror (SnapmirrorResource.Create.body data)]
      data.ID.ValueString = .ok restInfo)
    (hflag : data.Initialize.ValueBool = true) (hstate : restInfo.State = "uninitialized")
    (hinit : b.InitializeSnapmirror
        [Call.CreateSnapmirror (SnapmirrorResource.Create.body data),
          Call.GetSnapmirrorByID data.ID.ValueString, Call.Sleep 3]
        resource.UUID "snapmirrored" = .error d) :
    (SnapmirrorResource.Create b data).trace
        = [Call.CreateSnapmirror (SnapmirrorResource.Create.body data),
            Call.GetSnapmirrorByID data.ID.ValueString, Call.Sleep 3,
            Call.InitializeSnapmirror resource.UUID "snapmirrored"]
      ∧ (SnapmirrorResource.Create b data).trace.any Call.isDeleteSnapmirror = false
      ∧ (SnapmirrorResource.Create b data).diags = [d]
      ∧ (SnapmirrorResource.Create b data).HasError = true
      ∧ (SnapmirrorResource.Create b data).saved = none := by
  rw [snapmirror_create_triggered b data resource restInfo hclient hcreate hread hflag hstate]
  simp only [hinit]
  simp [Call.isDeleteSnapmirror, Response.HasError]

/-- C9 (witness): the sample backend with an initialize call that fails. -/
theorem snapmirror_create_initialize_failure_witness :
    (SnapmirrorResource.Create
        (sampleBackend "snapmirrored" (.error ⟨"error initializing snapmirror", "status 500"⟩) none)
        samplePlan).trace
      = [Call.CreateSnapmirror (SnapmirrorResource.Create.body samplePlan),
          Call.GetSnapmirrorByID samplePlan.ID.ValueString, Call.Sleep 3,
          Call.InitializeSnapmirror
            (⟨true, "uninitialized", "u1"⟩ : SnapmirrorGetDataModelONTAP).UUID "snapmirrored"]
      ∧ (SnapmirrorResource.Create
        (sampleBackend "snapmirrored" (.error ⟨"error initializing snapmirror", "status 500"⟩) none)
        samplePlan).trace.any Call.isDeleteSnapmirror = false
      ∧ (SnapmirrorResource.Create
        (sampleBackend "snapmirrored" (.error ⟨"error initializing snapmirror", "status 500"⟩) none)
        samplePlan).diags = [⟨"error initializing snapmirror", "status 500"⟩]
      ∧ (SnapmirrorResource.Create
        (sampleBackend "snapmirrored" (.error ⟨"error initializing snapmirror", "status 500"⟩) none)
        samplePlan).HasError = true
      ∧ (SnapmirrorResource.Create
        (sampleBackend "snapmirrored" (.error ⟨"error initializing snapmirror", "status 500"⟩) none)
        samplePlan).saved = none :=
  snapmirror_create_initialize_failure
    (sampleBackend "snapmirrored" (.error ⟨"error initializing snapmirror", "status 500"⟩) none)
    samplePlan ⟨true, "uninitialized", "u1"⟩ ⟨true, "uninitialized", "u1"⟩
    ⟨"error initializing snapmirror", "status 500"⟩ rfl rfl rfl rfl rfl rfl

/-- Whenever the client is obtained and the create call succeeds, the first read of
`Create` is keyed by the text of the id of the plan, not by the UUID just created. -/
theorem snapmirror_create_first_read_key (b : Backend) (data : SnapmirrorResourceModel)
    (resource : SnapmirrorGetDataModelONTAP)
    (hclient : b.getRestClient data.CxProfileName = .ok ())
    (hcreate : b.CreateSnapmirror [] (SnapmirrorResource.Create.body data) = .ok resource) :
    (SnapmirrorResource.Create b data).trace.take 2
      = [Call.CreateSnapmirror (SnapmirrorResource.Create.body data),
          Call.GetSnapmirrorByID data.ID.ValueString] := by
  cases hread : b.GetSnapmirrorByID [Call.CreateSnapmirror (SnapmirrorResource.Create.body data)]
      data.ID.ValueString with
  | error d =>
    simp [SnapmirrorResource.Create, getRestClient, Run.start, hclient, Run.invoke, hcreate,
      hread, Run.stop]
  | ok restInfo =>
    by_cases hc : data.Initialize.ValueBool = true ∧ restInfo.State = "uninitialized"
    · rw [snapmirror_create_triggered b data resource restInfo hclient hcreate hread hc.1 hc.2]
      cases b.InitializeSnapmirror
          [Call.CreateSnapmirror (SnapmirrorResource.Create.body data),
            Call.GetSnapmirrorByID data.ID.ValueString, Call.Sleep 3]
          resource.UUID "snapmirrored" with
      | error d => rfl
      | ok u =>
        cases b.GetSnapmirrorByID
            [Call.CreateSnapmirror (SnapmirrorResource.Create.body data),
              Call.GetSnapmirrorByID data.ID.ValueString, Call.Sleep 3,
              Call.InitializeSnapmirror resource.UUID "snapmirrored"]
            resource.UUID <;> rfl
    · rw [snapmirror_create_untriggered b data resource restInfo hclient hcreate hread hc]
      cases b.GetSnapmirrorByID
          [Call.CreateSnapmirror (SnapmirrorResource.Create.body data),
            Call.GetSnapmirrorByID data.ID.ValueString]
          resource.UUID <;> rfl

/-- C10 (failing input): a plan as `Create` receives it, with the computed id still
unknown, on a backend whose create call returns the UUID `u1`.  The first read, the
one whose result decides the initialize trigger, is keyed by the empty text of the
id of the plan and not by `u1`; only the last read is keyed by `u1`. -/
theorem snapmirror_create_first_read_empty_id :
    samplePlan.ID = TfString.unknown
      ∧ (sampleBackend "snapmirrored" (.ok ()) none).CreateSnapmirror []
          (SnapmirrorResource.Create.body samplePlan) = .ok ⟨true, "uninitialized", "u1"⟩
      ∧ (SnapmirrorResource.Create (sampleBackend "snapmirrored" (.ok ()) none)
          samplePlan).trace.filter Call.isGetSnapmirrorByID
        = [Call.GetSnapmirrorByID "", Call.GetSnapmirrorByID "u1"] := by
  refine ⟨rfl, rfl, by decide⟩

/-- C11: on every successful `Create` (a state is saved), the last call of the
operation is a read keyed by the UUID that the create call returned, issued after
the create call and after the initialize call when there is one; the saved
healthy and state values are exactly those this read returned, and the saved id is
the UUID returned by the create call. -/
theorem snapmirror_create_saved_from_last_read (b : Backend)
    (data saved : SnapmirrorResourceModel)
    (hsaved : (SnapmirrorResource.Create b data).saved = some saved) :
    ∃ (resource restInfo2 : SnapmirrorGetDataModelONTAP) (before : List Call),
      b.CreateSnapmirror [] (SnapmirrorResource.Create.body data) = .ok resource
        ∧ (SnapmirrorResource.Create b data).trace
            = before ++ [Call.GetSnapmirrorByID resource.UUID]
        ∧ Call.CreateSnapmirror (SnapmirrorResource.Create.body data) ∈ before
        ∧ b.GetSnapmirrorByID before resource.UUID = .ok restInfo2
        ∧ saved.Healthy = TfBool.known restInfo2.Healthy
        ∧ saved.State = TfString.known restInfo2.State
        ∧ saved.ID = TfString.known resource.UUID := by
  cases hclient : b.getRestClient data.CxProfileName with
  | error d =>
    simp [SnapmirrorResource.Create, getRestClient, hclient, Run.stop] at hsaved
  | ok u =>
    cases hcreate : b.CreateSnapmirror [] (SnapmirrorResource.Create.body data) with
    | error d =>
      simp [SnapmirrorResource.Create, getRestClient, hclient, Run.start, Run.invoke, hcreate,
        Run.stop] at hsaved
    | ok resource =>
      cases hread : b.GetSnapmirrorByID
          [Call.CreateSnapmirror (SnapmirrorResource.Create.body data)] data.ID.ValueString with
      | error d =>
        simp [SnapmirrorResource.Create, getRestClient, hclient, Run.start, Run.invoke, hcreate,
          hread, Run.stop] at hsaved
      | ok restInfo =>
        by_cases hc : data.Initialize.ValueBool = true ∧ restInfo.State = "uninitialized"
        · rw [snapmirror_create_triggered b data resource restInfo hclient hcreate hread
            hc.1 hc.2] at hsaved ⊢
          cases hi : b.InitializeSnapmirror
              [Call.CreateSnapmirror (SnapmirrorResource.Create.body data),
                Call.GetSnapmirrorByID data.ID.ValueString, Call.Sleep 3]
              resource.UUID "snapmirrored" with
          | error d => simp [hi] at hsaved
          | ok v =>
            cases hr : b.GetSnapmirrorByID
                [Call.CreateSnapmirror (SnapmirrorResource.Create.body data),
                  Call.GetSnapmirrorByID data.ID.ValueString, Call.Sleep 3,
                  Call.InitializeSnapmirror resource.UUID "snapmirrored"]
                resource.UUID with
            | error d => simp [hi, hr] at hsaved
            | ok restInfo2 =>
              simp only [hi, hr, Option.some.injEq] at hsaved
              subst hsaved
              exact ⟨resource, restInfo2, _, rfl, rfl, by simp, hr, rfl, rfl, rfl⟩
        · rw [snapmirror_create_untriggered b data resource restInfo hclient hcreate hread hc]
            at hsaved ⊢
          cases hr : b.GetSnapmirrorByID
              [Call.CreateSnapmirror (SnapmirrorResource.Create.body data),
                Call.GetSnapmirrorByID data.ID.ValueString]
              resource.UUID with
          | error d => simp [hr] at hsaved
          | ok restInfo2 =>
            simp only [hr, Option.some.injEq] at hsaved
            subst hsaved
            exact ⟨resource, restInfo2, _, rfl, rfl, by simp, hr, rfl, rfl, rfl⟩

/-- C11 (witness): the state saved on the sample backend. -/
theorem snapmirror_create_saved_from_last_read_witness :
    ∃ (resource restInfo2 : SnapmirrorGetDataModelONTAP) (before : List Call),
      (sampleBackend "snapmirrored" (.ok ()) none).CreateSnapmirror []
          (SnapmirrorResource.Create.body samplePlan) = .ok resource
        ∧ (SnapmirrorResource.Create (sampleBackend "snapmirrored" (.ok ()) none) samplePlan).trace
            = before ++ [Call.GetSnapmirrorByID resource.UUID]
        ∧ Call.CreateSnapmirror (SnapmirrorResource.Create.body samplePlan) ∈ before
        ∧ (sampleBackend "snapmirrored" (.ok ()) none).GetSnapmirrorByID before resource.UUID
            = .ok restInfo2
        ∧ ({ samplePlan with
              Healthy := TfBool.known true
              State := TfString.known "snapmirrored"
              ID := TfString.known "u1" } : SnapmirrorResourceModel).Healthy
            = TfBool.known restInfo2.Healthy
        ∧ ({ samplePlan with
              Healthy := TfBool.known true
              State := TfString.known "snapmirrored"
              ID := TfString.known "u1" } : SnapmirrorResourceModel).State
            = TfString.known restInfo2.State
        ∧ ({ samplePlan with
              Healthy := TfBool.known true
              State := TfString.known "snapmirrored"
              ID := TfString.known "u1" } : SnapmirrorResourceModel).ID
            = TfString.known resource.UUID :=
  snapmirror_create_saved_from_last_read (sampleBackend "snapmirrored" (.ok ()) none) samplePlan
    { samplePlan with
      Healthy := TfBool.known true
      State := TfString.known "snapmirrored"
      ID := TfString.known "u1" }
    (by decide)

/-! ### Reference resolution in `StorageVolumeSnapshotResource` -/

/-- `GetSvmByName` issues exactly one gateway call; it either fails, having reported
one diagnostic, or returns an optional record with the diagnostics unchanged. -/
theorem getSvmByName_cases (b : Backend) (r : Run) (name : String) :
    (∃ d e, GetSvmByName b r name
        = (⟨r.diags ++ [d], r.trace ++ [Call.GetNilOrOneRecord "svm/svms" [("name", name)]]⟩,
          .error e))
      ∨ (∃ svm, GetSvmByName b r name
        = (⟨r.diags, r.trace ++ [Call.GetNilOrOneRecord "svm/svms" [("name", name)]]⟩,
          .ok svm)) := by
  unfold GetSvmByName
  simp only [Run.report, MakeAndReportError]
  cases b.GetNilOrOneRecord r.trace "svm/svms" [("name", name)] with
  | error e => exact Or.inl ⟨_, _, rfl⟩
  | ok p =>
    obtain ⟨status, response⟩ := p
    cases response with
    | none => exact Or.inr ⟨_, rfl⟩
    | some rec =>
      simp only []
      cases b.decodeSvmGet rec with
      | error err => exact Or.inl ⟨_, _, rfl⟩
      | ok svm => exact Or.inr ⟨_, rfl⟩

/-- A successful `GetSvmByName` from the start of an operation, as a pair. -/
theorem getSvmByName_ok_start (b : Backend) (name : String) (svm : Option SvmGetDataModelONTAP)
    (h : (GetSvmByName b Run.start name).2 = .ok svm) :
    GetSvmByName b Run.start name
      = (⟨[], [Call.GetNilOrOneRecord "svm/svms" [("name", name)]]⟩, .ok svm) := by
  rcases getSvmByName_cases b Run.start name with ⟨d, e, hg⟩ | ⟨x, hg⟩
  · rw [hg] at h; simp at h
  · rw [hg] at h ⊢
    simp only [Except.ok.injEq] at h
    subst h
    rfl

/-- A failed `GetSvmByName` from the start of an operation, as a pair. -/
theorem getSvmByName_error_start (b : Backend) (name : String) (e : String)
    (h : (GetSvmByName b Run.start name).2 = .error e) :
    ∃ d, GetSvmByName b Run.start name
      = (⟨[d], [Call.GetNilOrOneRecord "svm/svms" [("name", name)]]⟩, .error e) := by
  rcases getSvmByName_cases b Run.start name with ⟨d, e1, hg⟩ | ⟨x, hg⟩
  · rw [hg] at h ⊢
    simp only [Except.error.injEq] at h
    subst h
    exact ⟨d, rfl⟩
  · rw [hg] at h; simp at h

/-- C12: in `Create` of a snapshot, references are resolved before use and a failed
resolution is terminal.  (1) If the SVM lookup fails or finds no SVM, an error is
reported and neither the volume lookup nor the create call is issued.  (2) If the
SVM is found and the volume lookup fails or finds no volume, an error is reported
and the create call is not issued.  (3) Otherwise the calls are, in order, the
SVM lookup, the volume lookup under the UUID of the resolved SVM, and the create
call keyed by the UUID of the resolved volume. -/
theorem snapshot_create_resolution (b : Backend) (data : StorageVolumeSnapshotResourceModel) :
    (((GetSvmByName b Run.start data.SVM.Name.ValueString).2 = .ok none
          ∨ ∃ e, (GetSvmByName b Run.start data.SVM.Name.ValueString).2 = .error e) →
        (StorageVolumeSnapshotResource.Create b data).HasError = true
          ∧ (StorageVolumeSnapshotResource.Create b data).trace.any
              Call.isGetUUIDVolumeByName = false
          ∧ (StorageVolumeSnapshotResource.Create b data).trace.any
              Call.isCreateStorageVolumeSnapshot = false)
      ∧ (∀ svm : SvmGetDataModelONTAP,
          (GetSvmByName b Run.start data.SVM.Name.ValueString).2 = .ok (some svm) →
          (b.GetUUIDVolumeByName
                [Call.GetNilOrOneRecord "svm/svms" [("name", data.SVM.Name.ValueString)]]
                svm.UUID data.Volume.Name.ValueString = .ok none
            ∨ ∃ d, b.GetUUIDVolumeByName
                [Call.GetNilOrOneRecord "svm/svms" [("name", data.SVM.Name.ValueString)]]
                svm.UUID data.Volume.Name.ValueString = .error d) →
          (StorageVolumeSnapshotResource.Create b data).HasError = true
            ∧ (StorageVolumeSnapshotResource.Create b data).trace.any
                Call.isCreateStorageVolumeSnapshot = false)
      ∧ (∀ (svm : SvmGetDataModelONTAP) (volume : UUIDRecord),
          b.getRestClient data.CxProfileName = .ok () →
          (GetSvmByName b Run.start data.SVM.Name.ValueString).2 = .ok (some svm) →
          b.GetUUIDVolumeByName
              [Call.GetNilOrOneRecord "svm/svms" [("name", data.SVM.Name.ValueString)]]
              svm.UUID data.Volume.Name.ValueString = .ok (some volume) →
          (StorageVolumeSnapshotResource.Create b data).trace
            = [Call.GetNilOrOneRecord "svm/svms" [("name", data.SVM.Name.ValueString)],
                Call.GetUUIDVolumeByName svm.UUID data.Volume.Name.ValueString,
                Call.CreateStorageVolumeSnapshot
                  (StorageVolumeSnapshotResource.Create.request data) volume.UUID]) := by
  refine ⟨?_, ?_, ?_⟩
  · intro h
    unfold StorageVolumeSnapshotResource.Create
    simp only [getRestClient]
    cases b.getRestClient data.CxProfileName with
    | error d => simp [Run.stop, Run.start, Response.HasError]
    | ok u =>
      simp only []
      rcases h with h | ⟨e, h⟩
      · rw [getSvmByName_ok_start b _ _ h]
        simp [Run.stop, Run.report, MakeAndReportError, Response.HasError,
          Call.isGetUUIDVolumeByName, Call.isCreateStorageVolumeSnapshot]
      · obtain ⟨d, hg⟩ := getSvmByName_error_start b _ _ h
        rw [hg]
        simp [Run.stop, Response.HasError, Call.isGetUUIDVolumeByName,
          Call.isCreateStorageVolumeSnapshot]
  · intro svm hsvm hvol
    unfold StorageVolumeSnapshotResource.Create
    simp only [getRestClient]
    cases b.getRestClient data.CxProfileName with
    | error d => simp [Run.stop, Run.start, Response.HasError]
    | ok u =>
      simp only []
      rw [getSvmByName_ok_start b _ _ hsvm]
      simp only [Run.invoke]
      rcases hvol with hvol | ⟨d, hvol⟩
      · simp [hvol, Run.stop, Run.report, MakeAndReportError, Response.HasError,
          Call.isGetUUIDVolumeByName, Call.isCreateStorageVolumeSnapshot]
      · simp [hvol, Run.stop, Response.HasError, Call.isGetUUIDVolumeByName,
          Call.isCreateStorageVolumeSnapshot]
  · intro svm volume hclient hsvm hvol
    unfold StorageVolumeSnapshotResource.Create
    simp only [getRestClient, hclient]
    rw [getSvmByName_ok_start b _ _ hsvm]
    simp only [Run.invoke, hvol, List.singleton_append, List.cons_append, List.nil_append]
    cases b.CreateStorageVolumeSnapshot
        [Call.GetNilOrOneRecord "svm/svms" [("name", data.SVM.Name.ValueString)],
          Call.GetUUIDVolumeByName svm.UUID data.Volume.Name.ValueString]
        (StorageVolumeSnapshotResource.Create.request data) volume.UUID <;> rfl

/-- C12 (witness): an SVM lookup with zero matches, a volume lookup with zero
matches, and a plan whose two references resolve (SVM `s1`, volume `v1`). -/
theorem snapshot_create_resolution_witness :
    ((StorageVolumeSnapshotResource.Create (sampleBackend "snapmirrored" (.ok ()) none)
          sampleSnapshot).HasError = true
        ∧ (StorageVolumeSnapshotResource.Create (sampleBackend "snapmirrored" (.ok ()) none)
          sampleSnapshot).trace.any Call.isGetUUIDVolumeByName = false
        ∧ (StorageVolumeSnapshotResource.Create (sampleBackend "snapmirrored" (.ok ()) none)
          sampleSnapshot).trace.any Call.isCreateStorageVolumeSnapshot = false)
      ∧ ((StorageVolumeSnapshotResource.Create sampleBackendNoVolume sampleSnapshot).HasError
          = true
        ∧ (StorageVolumeSnapshotResource.Create sampleBackendNoVolume sampleSnapshot).trace.any
          Call.isCreateStorageVolumeSnapshot = false)
      ∧ (StorageVolumeSnapshotResource.Create (sampleBackend "snapmirrored" (.ok ()) (some []))
          sampleSnapshot).trace
        = [Call.GetNilOrOneRecord "svm/svms" [("name", sampleSnapshot.SVM.Name.ValueString)],
            Call.GetUUIDVolumeByName (⟨"svm1", "s1"⟩ : SvmGetDataModelONTAP).UUID
              sampleSnapshot.Volume.Name.ValueString,
            Call.CreateStorageVolumeSnapshot
              (StorageVolumeSnapshotResource.Create.request sampleSnapshot)
              (⟨"vol1", "v1"⟩ : UUIDRecord).UUID] :=
  ⟨(snapshot_create_resolution (sampleBackend "snapmirrored" (.ok ()) none) sampleSnapshot).1
      (Or.inl rfl),
   (snapshot_create_resolution sampleBackendNoVolume sampleSnapshot).2.1 ⟨"svm1", "s1"⟩ rfl
      (Or.inl rfl),
   (snapshot_create_resolution (sampleBackend "snapmirrored" (.ok ()) (some []))
      sampleSnapshot).2.2 ⟨"svm1", "s1"⟩ ⟨"vol1", "v1"⟩ rfl rfl rfl⟩

/-- Whenever the client is obtained and the SVM lookup matches zero records, `Read`,
`Update` and `Delete` of a snapshot end in the nil dereference `svm.UUID`, right
after the lookup: no diagnostic is reported and no further call is issued. -/
theorem snapshot_zero_svm_crash (b : Backend) (data state : StorageVolumeSnapshotResourceModel)
    (hclient : b.getRestClient data.CxProfileName = .ok ())
    (hsvm : (GetSvmByName b Run.start data.SVM.Name.ValueString).2 = .ok none) :
    StorageVolumeSnapshotResource.Read b data
        = ⟨[], [Call.GetNilOrOneRecord "svm/svms" [("name", data.SVM.Name.ValueString)]],
            none, true⟩
      ∧ StorageVolumeSnapshotResource.Update b data state
        = ⟨[], [Call.GetNilOrOneRecord "svm/svms" [("name", data.SVM.Name.ValueString)]],
            none, true⟩
      ∧ StorageVolumeSnapshotResource.Delete b data
        = ⟨[], [Call.GetNilOrOneRecord "svm/svms" [("name", data.SVM.Name.ValueString)]],
            none, true⟩ := by
  refine ⟨?_, ?_, ?_⟩
  · unfold StorageVolumeSnapshotResource.Read
    simp only [getRestClient, hclient]
    rw [getSvmByName_ok_start b _ _ hsvm]
    rfl
  · unfold StorageVolumeSnapshotResource.Update
    simp only [getRestClient, hclient]
    rw [getSvmByName_ok_start b _ _ hsvm]
    rfl
  · unfold StorageVolumeSnapshotResource.Delete
    simp only [getRestClient, hclient]
    rw [getSvmByName_ok_start b _ _ hsvm]
    rfl

/-- C13 (failing input): the SVM lookup by name matches zero records.  `Read`,
`Update` and `Delete` of a snapshot use the absent result (`svm.UUID` on nil): each
run ends in a nil dereference after the lookup, with no diagnostic reported, while
`Create` on the same backend reports "No svm found". -/
theorem snapshot_read_update_delete_zero_svm :
    (GetSvmByName (sampleBackend "snapmirrored" (.ok ()) none) Run.start "svm1").2 = .ok none
      ∧ StorageVolumeSnapshotResource.Read (sampleBackend "snapmirrored" (.ok ()) none)
          sampleSnapshot
        = ⟨[], [Call.GetNilOrOneRecord "svm/svms" [("name", "svm1")]], none, true⟩
      ∧ StorageVolumeSnapshotResource.Update (sampleBackend "snapmirrored" (.ok ()) none)
          sampleSnapshot sampleSnapshot
        = ⟨[], [Call.GetNilOrOneRecord "svm/svms" [("name", "svm1")]], none, true⟩
      ∧ StorageVolumeSnapshotResource.Delete (sampleBackend "snapmirrored" (.ok ()) none)
          sampleSnapshot
        = ⟨[], [Call.GetNilOrOneRecord "svm/svms" [("name", "svm1")]], none, true⟩
      ∧ (StorageVolumeSnapshotResource.Read (sampleBackend "snapmirrored" (.ok ()) none)
          sampleSnapshot).HasError = false
      ∧ StorageVolumeSnapshotResource.Create (sampleBackend "snapmirrored" (.ok ()) none)
          sampleSnapshot
        = ⟨[⟨"No svm found", "svm \"svm1\" not found."⟩],
            [Call.GetNilOrOneRecord "svm/svms" [("name", "svm1")]], none, false⟩ := by
  refine ⟨rfl, by decide, by decide, by decide, by decide, by decide⟩

/-! ### The PATCH of `StorageVolumeSnapshotResource.Update` -/

/-- A field that the plan empties is changed to an empty text. -/
theorem emptied_changedToEmpty (plan prior : TfString) (h : emptied plan prior = true) :
    changedToEmpty plan prior = true := by
  have hc := emptied_changed plan prior h
  simp only [changedToEmpty, hc.1, hc.2, Bool.and_self]

/-- A plan that empties a previously non-empty field changes a field to an empty
text. -/
theorem emptiesField_changesFieldToEmpty (data state : StorageVolumeSnapshotResourceModel)
    (h : emptiesField data state = true) : changesFieldToEmpty data state = true := by
  simp only [emptiesField, Bool.or_eq_true] at h
  simp only [changesFieldToEmpty, Bool.or_eq_true]
  rcases h with ((h | h) | h) | h
  · exact Or.inl (Or.inl (Or.inl (emptied_changedToEmpty _ _ h)))
  · exact Or.inl (Or.inl (Or.inr (emptied_changedToEmpty _ _ h)))
  · exact Or.inl (Or.inr (emptied_changedToEmpty _ _ h))
  · exact Or.inr (emptied_changedToEmpty _ _ h)

/-- When no field is changed to an empty text, the request `Update` builds is the
request of the specification. -/
theorem update_request_spec (r : Run) (data state : StorageVolumeSnapshotResourceModel)
    (hpol : changesFieldToEmpty data state = false) :
    StorageVolumeSnapshotResource.Update.request r data state = .ok (specRequest data state) := by
  simp only [changesFieldToEmpty, changedToEmpty, Bool.or_eq_false_iff, Bool.and_eq_false_iff] at hpol
  obtain ⟨⟨⟨p1, p2⟩, p3⟩, p4⟩ := hpol
  cases hreq : StorageVolumeSnapshotResource.Update.request r data state with
  | error r3 =>
    exfalso
    unfold StorageVolumeSnapshotResource.Update.request at hreq
    rcases except_bind_eq_error _ _ _ hreq with h1 | ⟨_, -, hreq⟩
    · have hc := field_step_eq_error _ _ _ _ _ _ h1
      rcases p1 with p | p <;> simp [hc.2.1, hc.2.2] at p
    rcases except_bind_eq_error _ _ _ hreq with h1 | ⟨_, -, hreq⟩
    · have hc := field_step_eq_error _ _ _ _ _ _ h1
      rcases p2 with p | p <;> simp [hc.2.1, hc.2.2] at p
    rcases except_bind_eq_error _ _ _ hreq with h1 | ⟨_, -, hreq⟩
    · have hc := field_step_eq_error _ _ _ _ _ _ h1
      rcases p3 with p | p <;> simp [hc.2.1, hc.2.2] at p
    rcases except_bind_eq_error _ _ _ hreq with h1 | ⟨_, -, hreq⟩
    · have hc := field_step_eq_error _ _ _ _ _ _ h1
      rcases p4 with p | p <;> simp [hc.2.1, hc.2.2] at p
    simp [pure, Except.pure] at hreq
  | ok req =>
    unfold StorageVolumeSnapshotResource.Update.request at hreq
    obtain ⟨a1, h1, hreq⟩ := except_bind_eq_ok _ _ _ hreq
    obtain ⟨a2, h2, hreq⟩ := except_bind_eq_ok _ _ _ hreq
    obtain ⟨a3, h3, hreq⟩ := except_bind_eq_ok _ _ _ hreq
    obtain ⟨a4, h4, hreq⟩ := except_bind_eq_ok _ _ _ hreq
    have e1 := (field_step_eq_ok _ _ _ _ _ _ h1).2
    have e2 := (field_step_eq_ok _ _ _ _ _ _ h2).2
    have e3 := (field_step_eq_ok _ _ _ _ _ _ h3).2
    have e4 := (field_step_eq_ok _ _ _ _ _ _ h4).2
    simp only [pure, Except.pure, Except.ok.injEq] at hreq
    subst hreq
    subst e4
    subst e3
    subst e2
    subst e1
    simp only [specRequest, changedValue]
    cases data.Name.Equal state.Name <;> cases data.ExpiryTime.Equal state.ExpiryTime <;>
      cases data.SnaplockExpiryTime.Equal state.SnaplockExpiryTime <;>
      cases data.Comment.Equal state.Comment <;>
      cases data.SnapmirrorLabel.Equal state.SnapmirrorLabel <;> simp

/-- C14 (amended): in `Update` of a snapshot, whenever the references resolve (the
client is obtained, the SVM and the volume are found) and no field is changed to
an empty text (a change between null and the empty string included), the calls
are the two lookups followed by exactly one PATCH
(`UpdateStorageVolumeSnapshot`), keyed by the resolved volume and by the id of the
prior state; its request carries, for each of name, expiry_time,
snaplock_expiry_time, comment and snapmirror_label, the value of the plan if it
differs from the value of the prior state and the empty value otherwise, a
function of the plan and the prior state alone. -/
theorem snapshot_update_single_patch (b : Backend)
    (data state : StorageVolumeSnapshotResourceModel) (svm : SvmGetDataModelONTAP)
    (volume : UUIDRecord)
    (hclient : b.getRestClient data.CxProfileName = .ok ())
    (hsvm : (GetSvmByName b Run.start data.SVM.Name.ValueString).2 = .ok (some svm))
    (hvol : b.GetUUIDVolumeByName
        [Call.GetNilOrOneRecord "svm/svms" [("name", data.SVM.Name.ValueString)]]
        svm.UUID data.Volume.Name.ValueString = .ok (some volume))
    (hpol : changesFieldToEmpty data state = false) :
    (StorageVolumeSnapshotResource.Update b data state).trace
        = [Call.GetNilOrOneRecord "svm/svms" [("name", data.SVM.Name.ValueString)],
            Call.GetUUIDVolumeByName svm.UUID data.Volume.Name.ValueString,
            Call.UpdateStorageVolumeSnapshot (specRequest data state) volume.UUID
              state.ID.ValueString]
      ∧ (StorageVolumeSnapshotResource.Update b data state).trace.filter
          Call.isUpdateStorageVolumeSnapshot
        = [Call.UpdateStorageVolumeSnapshot (specRequest data state) volume.UUID
            state.ID.ValueString] := by
  have htrace : (StorageVolumeSnapshotResource.Update b data state).trace
      = [Call.GetNilOrOneRecord "svm/svms" [("name", data.SVM.Name.ValueString)],
          Call.GetUUIDVolumeByName svm.UUID data.Volume.Name.ValueString,
          Call.UpdateStorageVolumeSnapshot (specRequest data state) volume.UUID
            state.ID.ValueString] := by
    unfold StorageVolumeSnapshotResource.Update
    simp only [getRestClient, hclient]
    rw [getSvmByName_ok_start b _ _ hsvm]
    simp only [Run.invoke, hvol, List.singleton_append, List.cons_append, List.nil_append,
      update_request_spec _ data state hpol]
    cases b.UpdateStorageVolumeSnapshot
        [Call.GetNilOrOneRecord "svm/svms" [("name", data.SVM.Name.ValueString)],
          Call.GetUUIDVolumeByName svm.UUID data.Volume.Name.ValueString]
        (specRequest data state) volume.UUID state.ID.ValueString <;> rfl
  refine ⟨htrace, ?_⟩
  rw [htrace]
  simp [Call.isUpdateStorageVolumeSnapshot]

/-- C14 (witness): the plan renames the snapshot and changes its comment; the PATCH
carries the new name and the new comment and leaves the other fields empty. -/
theorem snapshot_update_single_patch_witness :
    (StorageVolumeSnapshotResource.Update (sampleBackend "snapmirrored" (.ok ()) (some []))
          { sampleSnapshot with Name := TfString.known "snap2", Comment := TfString.known "weekly" }
          sampleSnapshot).trace
        = [Call.GetNilOrOneRecord "svm/svms"
              [("name", ({ sampleSnapshot with
                  Name := TfString.known "snap2"
                  Comment := TfString.known "weekly" }
                : StorageVolumeSnapshotResourceModel).SVM.Name.ValueString)],
            Call.GetUUIDVolumeByName (⟨"svm1", "s1"⟩ : SvmGetDataModelONTAP).UUID
              ({ sampleSnapshot with
                  Name := TfString.known "snap2"
                  Comment := TfString.known "weekly" }
                : StorageVolumeSnapshotResourceModel).Volume.Name.ValueString,
            Call.UpdateStorageVolumeSnapshot
              (specRequest
                { sampleSnapshot with
                  Name := TfString.known "snap2"
                  Comment := TfString.known "weekly" }
                sampleSnapshot)
              (⟨"vol1", "v1"⟩ : UUIDRecord).UUID sampleSnapshot.ID.ValueString]
      ∧ (StorageVolumeSnapshotResource.Update (sampleBackend "snapmirrored" (.ok ()) (some []))
          { sampleSnapshot with Name := TfString.known "snap2", Comment := TfString.known "weekly" }
          sampleSnapshot).trace.filter Call.isUpdateStorageVolumeSnapshot
        = [Call.UpdateStorageVolumeSnapshot
            (specRequest
              { sampleSnapshot with
                Name := TfString.known "snap2"
                Comment := TfString.known "weekly" }
              sampleSnapshot)
            (⟨"vol1", "v1"⟩ : UUIDRecord).UUID sampleSnapshot.ID.ValueString] :=
  snapshot_update_single_patch (sampleBackend "snapmirrored" (.ok ()) (some []))
    { sampleSnapshot with Name := TfString.known "snap2", Comment := TfString.known "weekly" }
    sampleSnapshot ⟨"svm1", "s1"⟩ ⟨"vol1", "v1"⟩ rfl rfl rfl (by decide)

/-- The request of the witness of C14, spelled out. -/
theorem specRequest_sample :
    specRequest
        { sampleSnapshot with Name := TfString.known "snap2", Comment := TfString.known "weekly" }
        sampleSnapshot
      = ⟨"snap2", "", "", "weekly", ""⟩ := by
  decide

/-- C14 (counterexample): the references resolve and no field that was non-empty is
emptied, so no field violates the empty-value policy as stated; yet the plan
changes the comment from null to the known empty string, or back, and `Update`
refuses it: it reports "update comment" after the two lookups and issues no
PATCH. -/
theorem snapshot_update_null_empty_change_refused :
    (GetSvmByName (sampleBackend "snapmirrored" (.ok ()) (some [])) Run.start "svm1").2
        = .ok (some ⟨"svm1", "s1"⟩)
      ∧ (sampleBackend "snapmirrored" (.ok ()) (some [])).GetUUIDVolumeByName
          [Call.GetNilOrOneRecord "svm/svms" [("name", "svm1")]] "s1" "vol1"
        = .ok (some ⟨"vol1", "v1"⟩)
      ∧ emptiesField { sampleSnapshot with Comment := TfString.known "" }
        { sampleSnapshot with Comment := TfString.null } = false
      ∧ StorageVolumeSnapshotResource.Update (sampleBackend "snapmirrored" (.ok ()) (some []))
          { sampleSnapshot with Comment := TfString.known "" }
          { sampleSnapshot with Comment := TfString.null }
        = ⟨[⟨"update comment", "comment cannot be updated with empty string"⟩],
            [Call.GetNilOrOneRecord "svm/svms" [("name", "svm1")],
              Call.GetUUIDVolumeByName "s1" "vol1"], none, false⟩
      ∧ emptiesField { sampleSnapshot with Comment := TfString.null }
        { sampleSnapshot with Comment := TfString.known "" } = false
      ∧ StorageVolumeSnapshotResource.Update (sampleBackend "snapmirrored" (.ok ()) (some []))
          { sampleSnapshot with Comment := TfString.null }
          { sampleSnapshot with Comment := TfString.known "" }
        = ⟨[⟨"update comment", "comment cannot be updated with empty string"⟩],
            [Call.GetNilOrOneRecord "svm/svms" [("name", "svm1")],
              Call.GetUUIDVolumeByName "s1" "vol1"], none, false⟩
      ∧ (StorageVolumeSnapshotResource.Update (sampleBackend "snapmirrored" (.ok ()) (some []))
          { sampleSnapshot with Comment := TfString.known "" }
          { sampleSnapshot with Comment := TfString.null }).trace.filter
            Call.isUpdateStorageVolumeSnapshot = [] := by
  refine ⟨rfl, rfl, by decide, by decide, by decide, by decide, by decide⟩

/-! ### Round trip of a snapshot -/

/-- A `Create` of a snapshot that saves a state saved the plan with its id replaced by
the UUID that the create call, the last call of the operation, returned. -/
theorem snapshot_create_saved (b : Backend) (data s1 : StorageVolumeSnapshotResourceModel)
    (h : (StorageVolumeSnapshotResource.Create b data).saved = some s1) :
    ∃ (snapshot : UUIDRecord) (volumeUUID : String) (before : List Call),
      (StorageVolumeSnapshotResource.Create b data).trace
          = before ++ [Call.CreateStorageVolumeSnapshot
              (StorageVolumeSnapshotResource.Create.request data) volumeUUID]
        ∧ b.CreateStorageVolumeSnapshot before
            (StorageVolumeSnapshotResource.Create.request data) volumeUUID = .ok snapshot
        ∧ s1 = { data with ID := TfString.known snapshot.UUID } := by
  unfold StorageVolumeSnapshotResource.Create at h ⊢
  simp only [getRestClient] at h ⊢
  cases hclient : b.getRestClient data.CxProfileName with
  | error d => simp [hclient, Run.stop] at h
  | ok u =>
    simp only [hclient] at h ⊢
    rcases getSvmByName_cases b Run.start data.SVM.Name.ValueString with ⟨d, e, hg⟩ | ⟨svm, hg⟩
    · rw [hg] at h; simp [Run.stop] at h
    · rw [hg] at h ⊢
      cases svm with
      | none => simp [Run.stop, Run.report] at h
      | some svm =>
        simp only [Run.invoke, Run.start, List.nil_append] at h ⊢
        cases hvol : b.GetUUIDVolumeByName
            [Call.GetNilOrOneRecord "svm/svms" [("name", data.SVM.Name.ValueString)]]
            svm.UUID data.Volume.Name.ValueString with
        | error d => simp [hvol, Run.stop] at h
        | ok volume =>
          cases volume with
          | none => simp [hvol, Run.stop, Run.report] at h
          | some volume =>
            simp only [hvol, List.singleton_append] at h ⊢
            cases hcr : b.CreateStorageVolumeSnapshot
                [Call.GetNilOrOneRecord "svm/svms" [("name", data.SVM.Name.ValueString)],
                  Call.GetUUIDVolumeByName svm.UUID data.Volume.Name.ValueString]
                (StorageVolumeSnapshotResource.Create.request data) volume.UUID with
            | error d => simp [hcr, Run.stop] at h
            | ok snapshot =>
              simp only [hcr, Run.save, Option.some.injEq] at h ⊢
              exact ⟨snapshot, volume.UUID, _, rfl, hcr, h.symm⟩

/-- A `Read` of a snapshot that saves a state saved the prior state with only its
name replaced. -/
theorem snapshot_read_saved (b : Backend) (data s2 : StorageVolumeSnapshotResourceModel)
    (h : (StorageVolumeSnapshotResource.Read b data).saved = some s2) :
    s2 = { data with Name := s2.Name } := by
  unfold StorageVolumeSnapshotResource.Read at h
  simp only [getRestClient] at h
  cases hclient : b.getRestClient data.CxProfileName with
  | error d => simp [hclient, Run.stop] at h
  | ok u =>
    simp only [hclient] at h
    rcases getSvmByName_cases b Run.start data.SVM.Name.ValueString with ⟨d, e, hg⟩ | ⟨svm, hg⟩
    · rw [hg] at h; simp [Run.stop] at h
    · rw [hg] at h
      cases svm with
      | none => simp [Run.crash] at h
      | some svm =>
        simp only [Run.invoke, Run.start, List.nil_append] at h
        cases hvol : b.GetUUIDVolumeByName
            [Call.GetNilOrOneRecord "svm/svms" [("name", data.SVM.Name.ValueString)]]
            svm.UUID data.Volume.Name.ValueString with
        | error d => simp [hvol, Run.stop] at h
        | ok volume =>
          cases volume with
          | none => simp [hvol, Run.crash] at h
          | some volume =>
            simp only [hvol, List.singleton_append] at h
            cases hget : b.GetStorageVolumeSnapshot
                [Call.GetNilOrOneRecord "svm/svms" [("name", data.SVM.Name.ValueString)],
                  Call.GetUUIDVolumeByName svm.UUID data.Volume.Name.ValueString]
                volume.UUID data.ID.ValueString with
            | error d => simp [hget, Run.stop] at h
            | ok snapshot =>
              simp only [hget, Run.save, Option.some.injEq] at h
              subst h
              rfl

/-- C15: round trip for snapshots.  When `Create` saves a state `s1` and a `Read` of
`s1` (on any backend) saves a state `s2`: the id of `s1` is the UUID returned by the
create call, `Read` changed nothing but the name, and so the id held after `Read`
is the id returned by `Create`. -/
theorem snapshot_create_read_round_trip (b1 b2 : Backend)
    (data s1 s2 : StorageVolumeSnapshotResourceModel)
    (hcreate : (StorageVolumeSnapshotResource.Create b1 data).saved = some s1)
    (hread : (StorageVolumeSnapshotResource.Read b2 s1).saved = some s2) :
    (∃ (snapshot : UUIDRecord) (volumeUUID : String) (before : List Call),
        (StorageVolumeSnapshotResource.Create b1 data).trace
            = before ++ [Call.CreateStorageVolumeSnapshot
                (StorageVolumeSnapshotResource.Create.request data) volumeUUID]
          ∧ b1.CreateStorageVolumeSnapshot before
              (StorageVolumeSnapshotResource.Create.request data) volumeUUID = .ok snapshot
          ∧ s1.ID = TfString.known snapshot.UUID
          ∧ s2.ID = TfString.known snapshot.UUID)
      ∧ s2 = { s1 with Name := s2.Name }
      ∧ s2.ID = s1.ID := by
  obtain ⟨snapshot, volumeUUID, before, htrace, hreply, hs1⟩ :=
    snapshot_create_saved b1 data s1 hcreate
  have hs2 := snapshot_read_saved b2 s1 s2 hread
  have hid : s2.ID = s1.ID := by rw [hs2]
  have hid1 : s1.ID = TfString.known snapshot.UUID := by rw [hs1]
  exact ⟨⟨snapshot, volumeUUID, before, htrace, hreply, hid1, hid.trans hid1⟩, hs2, hid⟩

/-- C15 (witness): a snapshot created and read back on the sample backend keeps the
id `n1` returned by the create call. -/
theorem snapshot_create_read_round_trip_witness :
    (∃ (snapshot : UUIDRecord) (volumeUUID : String) (before : List Call),
        (StorageVolumeSnapshotResource.Create (sampleBackend "snapmirrored" (.ok ()) (some []))
            { sampleSnapshot with ID := TfString.unknown }).trace
            = before ++ [Call.CreateStorageVolumeSnapshot
                (StorageVolumeSnapshotResource.Create.request
                  { sampleSnapshot with ID := TfString.unknown }) volumeUUID]
          ∧ (sampleBackend "snapmirrored" (.ok ()) (some [])).CreateStorageVolumeSnapshot before
              (StorageVolumeSnapshotResource.Create.request
                { sampleSnapshot with ID := TfString.unknown }) volumeUUID = .ok snapshot
          ∧ ({ sampleSnapshot with ID := TfString.known "n1" }
              : StorageVolumeSnapshotResourceModel).ID = TfString.known snapshot.UUID
          ∧ sampleSnapshot.ID = TfString.known snapshot.UUID)
      ∧ sampleSnapshot
        = { ({ sampleSnapshot with ID := TfString.known "n1" }
              : StorageVolumeSnapshotResourceModel) with Name := sampleSnapshot.Name }
      ∧ sampleSnapshot.ID
        = ({ sampleSnapshot with ID := TfString.known "n1" }
            : StorageVolumeSnapshotResourceModel).ID :=
  snapshot_create_read_round_trip (sampleBackend "snapmirrored" (.ok ()) (some []))
    (sampleBackend "snapmirrored" (.ok ()) (some []))
    { sampleSnapshot with ID := TfString.unknown }
    { sampleSnapshot with ID := TfString.known "n1" } sampleSnapshot (by decide) (by decide)

/-! ### `ValidateIntORString` -/

/-- The character of a decimal digit is an ASCII digit with that value. -/
theorem digitChar_spec (k : Nat) (h : k < 10) :
    (Nat.digitChar k).isDigit = true ∧ digitValue (Nat.digitChar k) = k := by
  interval_cases k <;> decide

/-- Reading digits continues from the value read so far. -/
theorem toDigitsCore_spec (fuel : Nat) :
    ∀ (n : Nat) (ds : List Char), n < fuel →
      (ds.all Char.isDigit = true → (Nat.toDigitsCore 10 fuel n ds).all Char.isDigit = true)
        ∧ (Nat.toDigitsCore 10 fuel n ds).foldl (fun a c => 10 * a + digitValue c) 0
            = ds.foldl (fun a c => 10 * a + digitValue c) n
        ∧ Nat.toDigitsCore 10 fuel n ds ≠ [] := by
  induction fuel with
  | zero => intro n ds h; omega
  | succ fuel ih =>
    intro n ds h
    have hd := digitChar_spec (n % 10) (Nat.mod_lt _ (by decide))
    simp only [Nat.toDigitsCore]
    by_cases h0 : n / 10 = 0
    · simp only [h0, if_true]
      refine ⟨fun hds => by simp [hd.1, hds], ?_, by simp⟩
      have hn : n % 10 = n := by omega
      rw [List.foldl_cons, Nat.mul_zero, Nat.zero_add, hd.2, hn]
    · simp only [h0, if_false]
      have hlt : n / 10 < fuel := by omega
      obtain ⟨i1, i2, i3⟩ := ih (n / 10) (Nat.digitChar (n % 10) :: ds) hlt
      refine ⟨fun hds => i1 (by simp [hd.1, hds]), ?_, i3⟩
      rw [i2, List.foldl_cons, hd.2]
      have hn : 10 * (n / 10) + n % 10 = n := by omega
      rw [hn]

/-- The decimal text of a natural number parses back to it and starts with a digit. -/
theorem parseUint_repr (n : Nat) :
    parseUint (Nat.repr n).data = some n
      ∧ ∃ c rest, (Nat.repr n).data = c :: rest ∧ c.isDigit = true := by
  obtain ⟨h1, h2, h3⟩ := toDigitsCore_spec (n + 1) n [] (by omega)
  have hdata : (Nat.repr n).data = Nat.toDigitsCore 10 (n + 1) n [] := rfl
  rw [hdata]
  have hall := h1 rfl
  constructor
  · cases hl : Nat.toDigitsCore 10 (n + 1) n [] with
    | nil => exact absurd hl h3
    | cons c rest =>
      rw [hl] at hall h2
      simp only [parseUint, hall, if_true, h2, List.foldl_nil]
  · cases hl : Nat.toDigitsCore 10 (n + 1) n [] with
    | nil => exact absurd hl h3
    | cons c rest =>
      rw [hl] at hall
      refine ⟨c, rest, rfl, ?_⟩
      simp only [List.all_cons, Bool.and_eq_true] at hall
      exact hall.1

/-- An ASCII digit is neither of the two sign characters. -/
theorem isDigit_not_sign (c : Char) (h : c.isDigit = true) : (c == '-' || c == '+') = false := by
  by_cases h1 : c = '-'
  · subst h1; exact absurd h (by decide)
  · by_cases h2 : c = '+'
    · subst h2; exact absurd h (by decide)
    · simp [h1, h2]

/-- `Atoi` reads back the canonical text of every integer that fits the type `int`. -/
theorem atoi_itoa (i : Int) (hlo : -(intCutoff : Int) ≤ i) (hhi : i < (intCutoff : Int)) :
    Atoi (Itoa i) = some i := by
  unfold Itoa
  by_cases hneg : i < 0
  · obtain ⟨hp, -⟩ := parseUint_repr i.natAbs
    have hdata : ("-" ++ Nat.repr i.natAbs).data = '-' :: (Nat.repr i.natAbs).data := by
      rw [String.data_append]; rfl
    have hle : ¬ i.natAbs > intCutoff := by omega
    have hval : -((i.natAbs : Nat) : Int) = i := by omega
    simp only [hneg, if_true, Atoi, hdata, beq_self_eq_true, Bool.true_or, hp, Bool.not_true,
      Bool.false_and, Bool.false_eq_true, if_false, Bool.true_and, decide_eq_true_eq, hle, hval]
  · obtain ⟨hp, c, rest, hdata, hc⟩ := parseUint_repr i.toNat
    have hsign := isDigit_not_sign c hc
    have hc1 : (c == '-') = false := by
      simp only [Bool.or_eq_false_iff] at hsign; exact hsign.1
    have hc2 : (c == '+') = false := by
      simp only [Bool.or_eq_false_iff] at hsign; exact hsign.2
    rw [hdata] at hp
    have hlt : ¬ i.toNat ≥ intCutoff := by omega
    have hval : ((i.toNat : Nat) : Int) = i := by omega
    simp only [hneg, if_false, Atoi, hdata, hc1, hc2, Bool.or_self, Bool.false_eq_true, hp,
      Bool.not_false, Bool.true_and, decide_eq_true_eq, hlt, Bool.false_and, hval]

/-- Every value `Atoi` returns fits the type `int`. -/
theorem atoi_range (s : String) (i : Int) (h : Atoi s = some i) :
    -(intCutoff : Int) ≤ i ∧ i < (intCutoff : Int) := by
  have hpos : 0 < intCutoff := Nat.pow_pos (by decide)
  unfold Atoi at h
  split at h
  · simp at h
  · rename_i c rest hdata
    simp only [] at h
    split at h
    · simp at h
    · rename_i un hun
      by_cases hneg : (c == '-') = true
      · simp only [hneg, Bool.not_true, Bool.false_and, Bool.false_eq_true, if_false,
          Bool.true_and, decide_eq_true_eq, if_true] at h
        split at h
        · simp at h
        · rename_i hle
          simp only [Option.some.injEq] at h
          omega
      · simp only [hneg, Bool.not_false, Bool.true_and, decide_eq_true_eq, Bool.false_and,
          Bool.false_eq_true, if_false] at h
        split at h
        · simp at h
        · rename_i hlt
          simp only [Option.some.injEq] at h
          omega

/-- C16: `ValidateIntORString` returns no error if and only if the value is the empty
string, or equals `astring`, or is the canonical decimal text `Itoa n` of an
integer `n` of the type `int`; hence the non-canonical or out-of-range numerals
"+1", "007", "-0" and "99999999999999999999" are rejected unless they equal
`astring`. -/
theorem validateIntORString_iff (r : Run) (value astring : String) :
    ((ValidateIntORString r value astring).2 = none
        ↔ (value = "" ∨ value = astring
          ∨ ∃ n : Int, -(intCutoff : Int) ≤ n ∧ n < (intCutoff : Int) ∧ value = Itoa n))
      ∧ (∀ v : String, v ∈ ["+1", "007", "-0", "99999999999999999999"] → v ≠ astring →
          (ValidateIntORString r v astring).2 ≠ none) := by
  constructor
  · unfold ValidateIntORString
    by_cases h : (value == "" || value == astring) = true
    · simp only [h, if_true, true_iff]
      simp only [Bool.or_eq_true, beq_iff_eq] at h
      rcases h with h | h
      · exact Or.inl h
      · exact Or.inr (Or.inl h)
    · simp only [h, Bool.false_eq_true, if_false]
      simp only [Bool.or_eq_true, beq_iff_eq, not_or] at h
      cases ha : Atoi value with
      | none =>
        simp only [Run.report, MakeAndReportError, reduceCtorEq, false_iff, not_or]
        refine ⟨h.1, h.2, ?_⟩
        rintro ⟨n, hlo, hhi, hv⟩
        rw [hv, atoi_itoa n hlo hhi] at ha
        exact absurd ha (by simp)
      | some i =>
        simp only []
        by_cases hs : Itoa i = value
        · simp only [hs, bne_self_eq_false, Bool.false_eq_true, if_false, true_iff]
          exact Or.inr (Or.inr ⟨i, (atoi_range value i ha).1, (atoi_range value i ha).2, hs.symm⟩)
        · have hb : (Itoa i != value) = true := by simpa using hs
          simp only [hb, if_true, Run.report, MakeAndReportError, reduceCtorEq, false_iff, not_or]
          refine ⟨h.1, h.2, ?_⟩
          rintro ⟨n, hlo, hhi, hv⟩
          rw [hv, atoi_itoa n hlo hhi] at ha
          simp only [Option.some.injEq] at ha
          exact hs (by rw [← ha, hv])
  · intro v hv hne
    have hne2 : (v == astring) = false := by simpa using hne
    simp only [List.mem_cons, List.mem_singleton, List.not_mem_nil, or_false] at hv
    rcases hv with rfl | rfl | rfl | rfl
    · have h1 : Atoi "+1" = some 1 := by decide
      have h2 : (Itoa 1 != "+1") = true := by decide
      simp [ValidateIntORString, hne2, h1, h2, Run.report, MakeAndReportError]
    · have h1 : Atoi "007" = some 7 := by decide
      have h2 : (Itoa 7 != "007") = true := by decide
      simp [ValidateIntORString, hne2, h1, h2, Run.report, MakeAndReportError]
    · have h1 : Atoi "-0" = some 0 := by decide
      have h2 : (Itoa 0 != "-0") = true := by decide
      simp [ValidateIntORString, hne2, h1, h2, Run.report, MakeAndReportError]
    · have h1 : Atoi "99999999999999999999" = none := by decide
      simp [ValidateIntORString, hne2, h1, Run.report, MakeAndReportError]

/-- C16 (witness): "42" is accepted as the canonical text of 42, and "007" is
rejected when `astring` is "unlimited". -/
theorem validateIntORString_iff_witness :
    (ValidateIntORString Run.start "42" "unlimited").2 = none
      ∧ (ValidateIntORString Run.start "007" "unlimited").2 ≠ none :=
  ⟨(validateIntORString_iff Run.start "42" "unlimited").1.2
      (Or.inr (Or.inr ⟨42, by decide, by decide, by decide⟩)),
   (validateIntORString_iff Run.start "42" "unlimited").2 "007" (by decide) (by decide)⟩

/-! ### `CreateSvm` -/

/-- Whenever the create call returns no error and zero records, `CreateSvm` returns
neither a record nor an error: the run is cut short at `response.Records[0]`. -/
theorem createSvm_zero_records (b : Backend) (r : Run) (data : SvmResourceModel)
    (body : Payload) (statusCode : Int)
    (hbody : decodeSvmResourceModel data = .ok body)
    (hcall : b.CallCreateMethod r.trace "svm/svms" [("return_records", "true")] body
      = .ok (statusCode, [])) :
    CreateSvm b r data
      = (⟨r.diags, r.trace ++ [Call.CallCreateMethod "svm/svms" [("return_records", "true")] body]⟩,
          none) := by
  unfold CreateSvm
  simp only [hbody, hcall]

/-- Whenever the create call returns no error and at least one record, `CreateSvm`
returns the decoded first record, or an error it has reported. -/
theorem createSvm_first_record (b : Backend) (r : Run) (data : SvmResourceModel)
    (body first : Payload) (others : List Payload) (statusCode : Int)
    (hbody : decodeSvmResourceModel data = .ok body)
    (hcall : b.CallCreateMethod r.trace "svm/svms" [("return_records", "true")] body
      = .ok (statusCode, first :: others)) :
    (∃ dataONTAP, b.decodeSvmGet first = .ok dataONTAP
        ∧ (CreateSvm b r data).2 = some (.ok dataONTAP)
        ∧ (CreateSvm b r data).1.diags = r.diags)
      ∨ (∃ e d, (CreateSvm b r data).2 = some (.error e)
        ∧ (CreateSvm b r data).1.diags = r.diags ++ [d]) := by
  unfold CreateSvm
  simp only [hbody, hcall]
  cases hd : b.decodeSvmGet first with
  | error err => exact Or.inr ⟨_, _, rfl, rfl⟩
  | ok dataONTAP => exact Or.inl ⟨dataONTAP, rfl, rfl, rfl⟩

/-- C17 (failing input): the create call answers with status 201, no transport error
and zero records.  `CreateSvm` indexes `response.Records[0]` out of range: it
returns neither a decoded record nor a reported error, and no diagnostic is
recorded. -/
theorem createSvm_zero_records_out_of_range :
    (sampleBackend "snapmirrored" (.ok ()) none).CallCreateMethod [] "svm/svms"
          [("return_records", "true")]
          [("name", PayloadValue.str "svm1"), ("ipspace", PayloadValue.obj [("name", "Default")]),
            ("snapshot_policy", PayloadValue.obj []), ("comment", PayloadValue.str "test"),
            ("max_volumes", PayloadValue.str "unlimited"),
            ("aggregates", PayloadValue.maps [[("name", "aggr1")]])]
        = .ok (201, [])
      ∧ CreateSvm (sampleBackend "snapmirrored" (.ok ()) none) Run.start sampleSvm
        = (⟨[], [Call.CallCreateMethod "svm/svms" [("return_records", "true")]
            [("name", PayloadValue.str "svm1"), ("ipspace", PayloadValue.obj [("name", "Default")]),
              ("snapshot_policy", PayloadValue.obj []), ("comment", PayloadValue.str "test"),
              ("max_volumes", PayloadValue.str "unlimited"),
              ("aggregates", PayloadValue.maps [[("name", "aggr1")]])]]⟩,
            none) := by
  refine ⟨rfl, rfl⟩

end Ontap
